import Mathlib

/-!
Verification of the NES emulator core (CPU, PPU, APU, bus, joypad).

Machine integers are modelled as Nat with explicit reduction mod 2^8 / 2^16
at the points where the Rust source performs wrapping arithmetic or where a
value is produced at type u8 / u16.  Fallible operations (Rust index
out-of-bounds aborts and explicit panics) are modelled with Option: a result
of none is an abort.  Components whose source files are absent from the
repository snapshot (the PPU address register, the cartridge mirroring enum,
the opcode table, the APU channel internals) are either modelled from the
specification (with a doc comment saying so) or taken as parameters, so the
theorems hold for every faithful instantiation.
-/

/-! Joypad, from src/joypad.rs. -/

structure Joypad where
  strobe : Bool
  button_index : Nat
  button_status : Nat
  deriving Repr, DecidableEq

namespace Joypad

def new : Joypad := { strobe := false, button_index := 0, button_status := 0 }

def write (j : Joypad) (data : Nat) : Joypad :=
  let strobe := data &&& 1 == 1
  if strobe then { j with strobe := strobe, button_index := 0 }
  else { j with strobe := strobe }

def read (j : Joypad) : Nat × Joypad :=
  if 7 < j.button_index then (1, j)
  else
    let response := (j.button_status &&& (1 <<< j.button_index)) >>> j.button_index
    if !j.strobe && j.button_index ≤ 7 then
      (response, { j with button_index := j.button_index + 1 })
    else (response, j)

def set_button_pressed_status (j : Joypad) (button : Nat) (pressed : Bool) : Joypad :=
  if pressed then { j with button_status := j.button_status ||| button }
  else { j with button_status := j.button_status &&& (255 ^^^ button) }

/-- Iterate read, collecting the returned bits (helper for stating sequences of reads). -/
def readSeq : Joypad → Nat → List Nat × Joypad
  | j, 0 => ([], j)
  | j, n + 1 =>
    let (v, j1) := read j
    let (vs, j2) := readSeq j1 n
    (v :: vs, j2)

end Joypad

namespace JoypadButton

def ButtonA : Nat := 1
def ButtonB : Nat := 2
def Select : Nat := 4
def Start : Nat := 8
def Up : Nat := 16
def Down : Nat := 32
def Left : Nat := 64
def Right : Nat := 128

end JoypadButton

/-! PPU, from src/ppu/mod.rs and src/ppu/registers/. -/

/-- Modelled from the spec: the cartridge module (cartridge.rs) is absent from
the source snapshot; section 6 of the spec gives a mirroring enum with the two
values Horizontal and Vertical. -/
inductive Mirroring where
  | HORIZONTAL
  | VERTICAL
  deriving Repr, DecidableEq

/-- From src/ppu/registers/scroll.rs. -/
structure ScrollRegister where
  scroll_x : Nat
  scroll_y : Nat
  latch : Bool
  deriving Repr, DecidableEq

namespace ScrollRegister

def new : ScrollRegister := { scroll_x := 0, scroll_y := 0, latch := false }

def write (r : ScrollRegister) (data : Nat) : ScrollRegister :=
  let r := if !r.latch then { r with scroll_x := data } else { r with scroll_y := data }
  { r with latch := !r.latch }

def reset_latch (r : ScrollRegister) : ScrollRegister := { r with latch := false }

end ScrollRegister

/-- Modelled from the spec: the file src/ppu/registers/addr.rs is absent from
the source snapshot.  Section 4.5 of the spec: the address register accepts
two writes through a shared latch, first the high byte (masked to 6 bits so
the register stays below 0x4000), then the low byte; reading the status
register resets the latch to expect a high byte; data accesses increment the
register by 1 or 32, carrying from the low into the high byte and keeping the
register mirrored below 0x4000. -/
structure AddrRegister where
  value_hi : Nat
  value_lo : Nat
  hi_ptr : Bool
  deriving Repr, DecidableEq

namespace AddrRegister

def new : AddrRegister := { value_hi := 0, value_lo := 0, hi_ptr := true }

def get (r : AddrRegister) : Nat := (r.value_hi <<< 8) ||| r.value_lo

/-- Mirror the register down below 0x4000 by masking the high byte to 6 bits. -/
def mirrorDown (r : AddrRegister) : AddrRegister :=
  if 0x3fff < r.get then { r with value_hi := r.value_hi &&& 0x3f } else r

def update (r : AddrRegister) (data : Nat) : AddrRegister :=
  let r1 := if r.hi_ptr then { r with value_hi := data } else { r with value_lo := data }
  let r2 := mirrorDown r1
  { r2 with hi_ptr := !r.hi_ptr }

def increment (r : AddrRegister) (inc : Nat) : AddrRegister :=
  let lo := (r.value_lo + inc) % 256
  let hi := if 255 < r.value_lo + inc then (r.value_hi + 1) % 256 else r.value_hi
  mirrorDown { r with value_lo := lo, value_hi := hi }

def reset_latch (r : AddrRegister) : AddrRegister := { r with hi_ptr := true }

end AddrRegister

/-! Control register bits, from src/ppu/registers/control.rs. -/

namespace ControlFlags

def NameTable1 : Nat := 1
def NameTable2 : Nat := 2
def VramAddIncrement : Nat := 4
def SpritePatternAddr : Nat := 8
def BackgroundPatternAddr : Nat := 16
def SpriteSize : Nat := 32
def MasterSlaveSelect : Nat := 64
def GenerateNMI : Nat := 128

end ControlFlags

/-! Status register bits, from src/ppu/registers/status.rs. -/

namespace StatusFlags

def SpriteOverflow : Nat := 32
def SpriteZeroHit : Nat := 64
def VBlankStarted : Nat := 128

end StatusFlags

/-- PPU state, from src/ppu/mod.rs.  The fixed-size arrays (palette 32 bytes,
vram 2 KiB, oam 256 bytes) are functions from index to byte; accesses carry
an explicit bounds check mirroring the Rust indexing abort. -/
structure NesPPU where
  chr_rom : List Nat
  palette_table : Nat → Nat
  vram : Nat → Nat
  oam_addr : Nat
  oam_data : Nat → Nat
  addr : AddrRegister
  mirroring : Mirroring
  ctrl : Nat
  mask : Nat
  status : Nat
  scroll : ScrollRegister
  scanline : Nat
  cycles : Nat
  internal_data_buf : Nat
  nmi_interrupt : Option Nat

namespace NesPPU

def new (chr_rom : List Nat) (mirroring : Mirroring) : NesPPU :=
  { chr_rom := chr_rom
    palette_table := fun _ => 0
    vram := fun _ => 0
    oam_addr := 0
    oam_data := fun _ => 0
    addr := AddrRegister.new
    mirroring := mirroring
    ctrl := 0
    mask := 0
    status := 0
    scroll := ScrollRegister.new
    scanline := 0
    cycles := 0
    internal_data_buf := 0
    nmi_interrupt := none }

def new_empty_rom : NesPPU := new (List.replicate 2048 0) Mirroring.HORIZONTAL

def get_flag (s : NesPPU) (flag : Nat) : Bool := decide (0 < s.ctrl &&& flag)

def set_flag (s : NesPPU) (flag : Nat) (value : Bool) : NesPPU :=
  if value then { s with ctrl := s.ctrl ||| flag }
  else { s with ctrl := s.ctrl &&& (255 ^^^ flag) }

def get_status (s : NesPPU) (flag : Nat) : Bool := decide (0 < s.status &&& flag)

def set_status (s : NesPPU) (flag : Nat) (value : Bool) : NesPPU :=
  if value then { s with status := s.status ||| flag }
  else { s with status := s.status &&& (255 ^^^ flag) }

def vram_addr_increment (s : NesPPU) : Nat :=
  if !(s.get_flag ControlFlags.VramAddIncrement) then 1 else 32

def increment_vram_addr (s : NesPPU) : NesPPU :=
  { s with addr := s.addr.increment s.vram_addr_increment }

def mirror_vram_addr (s : NesPPU) (addr : Nat) : Nat :=
  let mirrored_vram := addr &&& 0b10111111111111
  let vram_index := mirrored_vram - 0x2000
  let name_table := vram_index / 0x400
  if s.mirroring = Mirroring.VERTICAL ∧ name_table = 2 then vram_index - 0x800
  else if s.mirroring = Mirroring.VERTICAL ∧ name_table = 3 then vram_index - 0x800
  else if s.mirroring = Mirroring.HORIZONTAL ∧ name_table = 2 then vram_index - 0x400
  else if s.mirroring = Mirroring.HORIZONTAL ∧ name_table = 1 then vram_index - 0x400
  else if s.mirroring = Mirroring.HORIZONTAL ∧ name_table = 3 then vram_index - 0x800
  else vram_index

def tick (s : NesPPU) (cycles : Nat) : Bool × NesPPU :=
  let s := { s with cycles := s.cycles + cycles }
  if 341 ≤ s.cycles then
    let s := { s with cycles := s.cycles - 341 }
    let s := { s with scanline := (s.scanline + 1) % 65536 }
    let s : NesPPU :=
      if s.scanline = 241 then
        let s := s.set_status StatusFlags.VBlankStarted true
        let s := s.set_status StatusFlags.SpriteZeroHit false
        if s.get_flag ControlFlags.GenerateNMI then { s with nmi_interrupt := some 1 } else s
      else s
    if 262 ≤ s.scanline then
      let s := { s with scanline := 0, nmi_interrupt := none }
      let s := s.set_status StatusFlags.SpriteZeroHit false
      let s := s.set_status StatusFlags.VBlankStarted false
      (true, s)
    else (false, s)
  else (false, s)

def poll_nmi_interrupt (s : NesPPU) : Option Nat × NesPPU :=
  (s.nmi_interrupt, { s with nmi_interrupt := none })

def write_to_ctrl (s : NesPPU) (value : Nat) : NesPPU :=
  let before_nmi := s.get_flag ControlFlags.GenerateNMI
  let s := { s with ctrl := value }
  if !before_nmi && s.get_flag ControlFlags.GenerateNMI &&
      s.get_status StatusFlags.VBlankStarted then
    { s with nmi_interrupt := some 1 }
  else s

def write_to_mask (s : NesPPU) (value : Nat) : NesPPU := { s with mask := value }

def read_status (s : NesPPU) : Nat × NesPPU :=
  let result := s.status
  let s := s.set_status StatusFlags.VBlankStarted false
  let s := { s with addr := s.addr.reset_latch }
  let s := { s with scroll := s.scroll.reset_latch }
  (result, s)

def write_to_oam_addr (s : NesPPU) (value : Nat) : NesPPU := { s with oam_addr := value }

def write_to_oam_data (s : NesPPU) (value : Nat) : NesPPU :=
  { s with oam_data := fun i => if i = s.oam_addr then value else s.oam_data i
           oam_addr := (s.oam_addr + 1) % 256 }

def read_oam_data (s : NesPPU) : Nat := s.oam_data s.oam_addr

def write_to_scroll (s : NesPPU) (value : Nat) : NesPPU :=
  { s with scroll := s.scroll.write value }

def write_to_ppu_addr (s : NesPPU) (value : Nat) : NesPPU :=
  { s with addr := s.addr.update value }

def write_to_data (s : NesPPU) (value : Nat) : Option NesPPU :=
  let addr := s.addr.get
  let written : Option NesPPU :=
    if addr ≤ 0x1fff then
      some s
    else if addr ≤ 0x2fff then
      let idx := s.mirror_vram_addr addr
      if idx < 2048 then
        some { s with vram := fun i => if i = idx then value else s.vram i }
      else none
    else if addr ≤ 0x3eff then none
    else if addr = 0x3f10 ∨ addr = 0x3f14 ∨ addr = 0x3f18 ∨ addr = 0x3f1c then
      let idx := (addr - 0x10) - 0x3f00
      if idx < 32 then
        some { s with palette_table := fun i => if i = idx then value else s.palette_table i }
      else none
    else if addr ≤ 0x3fff then
      let idx := addr - 0x3f00
      if idx < 32 then
        some { s with palette_table := fun i => if i = idx then value else s.palette_table i }
      else none
    else none
  written.map increment_vram_addr

def read_data (s : NesPPU) : Option (Nat × NesPPU) :=
  let addr := s.addr.get
  let s := s.increment_vram_addr
  if addr ≤ 0x1fff then
    match s.chr_rom.get? addr with
    | some v => some (s.internal_data_buf, { s with internal_data_buf := v })
    | none => none
  else if addr ≤ 0x2fff then
    let idx := s.mirror_vram_addr addr
    if idx < 2048 then
      some (s.internal_data_buf, { s with internal_data_buf := s.vram idx })
    else none
  else if addr ≤ 0x3eff then none
  else if addr = 0x3f10 ∨ addr = 0x3f14 ∨ addr = 0x3f18 ∨ addr = 0x3f1c then
    let idx := (addr - 0x10) - 0x3f00
    if idx < 32 then some (s.palette_table idx, s) else none
  else if addr ≤ 0x3fff then
    let idx := addr - 0x3f00
    if idx < 32 then some (s.palette_table idx, s) else none
  else none

end NesPPU

/-! APU, from src/apu/mod.rs.  The channel, frame-counter and filter source
files are absent from the source snapshot, so their state types and the
operations src/apu/mod.rs invokes on them are parameters: the theorems hold
for every instantiation, in particular for the real one. -/

/-- Result of a frame-counter tick, from src/apu/mod.rs (frame_counter module). -/
inductive FrameResult where
  | Quarter
  | Half
  | NoResult
  deriving Repr, DecidableEq

/-- The operations src/apu/mod.rs invokes on the APU subcomponents whose
sources are absent (pulse, triangle, noise, DMC channels and the frame
counter), bundled as a parameter. -/
structure ApuOps (Pulse Triangle Noise Dmc Fc : Type) where
  pulseTickSequencer : Pulse → Pulse
  pulseTickQuarterFrame : Pulse → Pulse
  pulseTickHalfFrame : Pulse → Pulse
  pulseUpdatePendingLengthCounter : Pulse → Pulse
  triangleTickSequencer : Triangle → Triangle
  triangleTickQuarterFrame : Triangle → Triangle
  triangleTickHalfFrame : Triangle → Triangle
  triangleUpdatePendingLengthCounter : Triangle → Triangle
  noiseTickSequencer : Noise → Noise
  noiseTickQuarterFrame : Noise → Noise
  noiseTickHalfFrame : Noise → Noise
  noiseUpdatePendingLengthCounter : Noise → Noise
  dmcTickSequencer : Dmc → Dmc
  fcTick : Fc → FrameResult × Fc

/-- APU state, from src/apu/mod.rs.  Sample is the type of the entries of the
floating-point sample buffer (floats are not modelled; the sampling function
is a parameter of tick). -/
structure APU (Pulse Triangle Noise Dmc Fc Filt Sample : Type) where
  buffer : List Sample
  executed_cycles : Nat
  frame_counter : Fc
  pulse_0 : Pulse
  pulse_1 : Pulse
  triangle : Triangle
  noise : Noise
  dmc : Dmc
  filters : Filt

namespace APU

variable {Pulse Triangle Noise Dmc Fc Filt Sample : Type}
variable (ops : ApuOps Pulse Triangle Noise Dmc Fc)

def handle_frame_result (r : FrameResult) (s : APU Pulse Triangle Noise Dmc Fc Filt Sample) :
    APU Pulse Triangle Noise Dmc Fc Filt Sample :=
  match r with
  | FrameResult.Quarter =>
    { s with pulse_0 := ops.pulseTickQuarterFrame s.pulse_0
             pulse_1 := ops.pulseTickQuarterFrame s.pulse_1
             triangle := ops.triangleTickQuarterFrame s.triangle }
  | FrameResult.Half =>
    { s with pulse_0 := ops.pulseTickHalfFrame (ops.pulseTickQuarterFrame s.pulse_0)
             pulse_1 := ops.pulseTickHalfFrame (ops.pulseTickQuarterFrame s.pulse_1)
             triangle := ops.triangleTickHalfFrame (ops.triangleTickQuarterFrame s.triangle)
             noise := ops.noiseTickHalfFrame (ops.noiseTickQuarterFrame s.noise) }
  | FrameResult.NoResult => s

/-- APU.tick from src/apu/mod.rs.  The sampling function (which reads the
channels and advances the filters) is a parameter, since the mixer operates
on floating-point numbers and the channel sources are absent. -/
def tick (sample : APU Pulse Triangle Noise Dmc Fc Filt Sample →
      Sample × APU Pulse Triangle Noise Dmc Fc Filt Sample)
    (cpu_cycles : Nat) (opcode_cycles : Nat)
    (s : APU Pulse Triangle Noise Dmc Fc Filt Sample) :
    APU Pulse Triangle Noise Dmc Fc Filt Sample :=
  let s := { s with triangle := ops.triangleTickSequencer s.triangle }
  let s : APU Pulse Triangle Noise Dmc Fc Filt Sample :=
    if cpu_cycles % 2 = 1 then
      { s with pulse_0 := ops.pulseTickSequencer s.pulse_0
               pulse_1 := ops.pulseTickSequencer s.pulse_1
               noise := ops.noiseTickSequencer s.noise
               dmc := ops.dmcTickSequencer s.dmc }
    else s
  let (r, fc) := ops.fcTick s.frame_counter
  let s := { s with frame_counter := fc }
  let s := handle_frame_result ops r s
  let s := { s with pulse_0 := ops.pulseUpdatePendingLengthCounter s.pulse_0
                    pulse_1 := ops.pulseUpdatePendingLengthCounter s.pulse_1
                    triangle := ops.triangleUpdatePendingLengthCounter s.triangle
                    noise := ops.noiseUpdatePendingLengthCounter s.noise }
  let s := { s with executed_cycles := (s.executed_cycles + opcode_cycles) % 4294967296 }
  if 40 ≤ s.executed_cycles then
    let (smp, s1) := sample s
    { s1 with buffer := s1.buffer ++ [smp], executed_cycles := 0 }
  else s

end APU

/-! Bus, from src/bus.rs.  The frame callback (a closure receiving the PPU
read-only and the APU and joypad mutably) is a parameter of tick. -/

structure Bus (Pulse Triangle Noise Dmc Fc Filt Sample : Type) where
  cpu_vram : Nat → Nat
  prg_rom : List Nat
  ppu : NesPPU
  apu : APU Pulse Triangle Noise Dmc Fc Filt Sample
  cycles : Nat
  joypad1 : Joypad

namespace Bus

variable {Pulse Triangle Noise Dmc Fc Filt Sample : Type}
variable (ops : ApuOps Pulse Triangle Noise Dmc Fc)

/-- Bus.tick from src/bus.rs: add the elapsed CPU cycles to the running
count, tick the APU (passing the updated count and the elapsed cycles), tick
the PPU with three PPU cycles per CPU cycle (a u8 product, hence the
reduction mod 256), and run the frame callback when the PPU reports a
completed frame. -/
def tick (sample : APU Pulse Triangle Noise Dmc Fc Filt Sample →
      Sample × APU Pulse Triangle Noise Dmc Fc Filt Sample)
    (cb : NesPPU → APU Pulse Triangle Noise Dmc Fc Filt Sample → Joypad →
      APU Pulse Triangle Noise Dmc Fc Filt Sample × Joypad)
    (s : Bus Pulse Triangle Noise Dmc Fc Filt Sample) (cycles : Nat) :
    Bus Pulse Triangle Noise Dmc Fc Filt Sample :=
  let s := { s with cycles := s.cycles + cycles }
  let s := { s with apu := APU.tick ops sample s.cycles cycles s.apu }
  let (new_frame, p) := s.ppu.tick ((cycles * 3) % 256)
  let s := { s with ppu := p }
  if new_frame then
    let (a, j) := cb s.ppu s.apu s.joypad1
    { s with apu := a, joypad1 := j }
  else s

def poll_nmi_status (s : Bus Pulse Triangle Noise Dmc Fc Filt Sample) :
    Option Nat × Bus Pulse Triangle Noise Dmc Fc Filt Sample :=
  let (v, p) := s.ppu.poll_nmi_interrupt
  (v, { s with ppu := p })

end Bus

/-! CPU, from src/cpu.rs.  The CPU reaches the bus only through the Mem trait
(mem_read, mem_write), bus.tick and bus.poll_nmi_status, so those four
operations are bundled as a parameter; the theorems hold for every
instantiation, in particular for the real bus.  A bus read may mutate the bus
(reads of PPU registers do), so read returns the new bus state too. -/

/-- The bus operations invoked by src/cpu.rs.  read returns a byte, hence
the reduction mod 256 encodes its u8 result type for arbitrary
instantiations. -/
structure BusOps (B : Type) where
  read : B → Nat → Nat × B
  write : B → Nat → Nat → B
  tick : B → Nat → B
  pollNmi : B → Option Nat × B

/-! Status register bits of the CPU, from src/cpu.rs (StatusFlag). -/

namespace StatusFlag

def Carry : Nat := 1
def Zero : Nat := 2
def InterruptDisable : Nat := 4
def DecimalMode : Nat := 8
def Break : Nat := 16
def Break2 : Nat := 32
def Overflow : Nat := 64
def Negative : Nat := 128

end StatusFlag

inductive AddressingMode where
  | Accumulator
  | Immediate
  | ZeroPage
  | ZeroPage_X
  | ZeroPage_Y
  | Absolute
  | Absolute_X
  | Absolute_Y
  | Indirect_X
  | Indirect_Y
  | NoneAddressing
  deriving Repr, DecidableEq

inductive InterruptType where
  | NMI
  deriving Repr, DecidableEq

/-- From the interrupt module in src/cpu.rs. -/
structure Interrupt where
  itype : InterruptType
  vector_addr : Nat
  b_flag_mask : Nat
  cpu_cycles : Nat
  deriving Repr, DecidableEq

def interruptNMI : Interrupt :=
  { itype := InterruptType.NMI, vector_addr := 0xfffA, b_flag_mask := 0b00100000, cpu_cycles := 2 }

/-- Modelled from the spec: src/opcodes.rs is absent from the source
snapshot.  Section 4.2: the opcode table maps a byte to (mnemonic,
addressing mode, base cycle count, length); the dispatch only consumes the
mode, the cycle count and the length, so an entry carries those three.  The
reachability theorems quantify over the table. -/
structure OpCode where
  mode : AddressingMode
  len : Nat
  cycles : Nat

/-- CPU state, from src/cpu.rs, over an abstract bus state B. -/
structure CPU (B : Type) where
  register_a : Nat
  register_x : Nat
  register_y : Nat
  status : Nat
  program_counter : Nat
  stack_pointer : Nat
  bus : B

namespace CPU

variable {B : Type} (ops : BusOps B)

def new (bus : B) : CPU B :=
  { register_a := 0, register_x := 0, register_y := 0, status := 0b100100,
    program_counter := 0, stack_pointer := 0xfd, bus := bus }

def mem_read (s : CPU B) (addr : Nat) : Nat × CPU B :=
  let r := ops.read s.bus addr
  (r.1 % 256, { s with bus := r.2 })

def mem_write (s : CPU B) (addr data : Nat) : CPU B :=
  { s with bus := ops.write s.bus addr data }

def mem_read_u16 (s : CPU B) (pos : Nat) : Nat × CPU B :=
  let rlo := mem_read ops s pos
  let rhi := mem_read ops rlo.2 ((pos + 1) % 65536)
  ((rhi.1 <<< 8) ||| rlo.1, rhi.2)

def mem_write_u16 (s : CPU B) (pos data : Nat) : CPU B :=
  let hi := (data >>> 8) % 256
  let lo := data &&& 0xff
  let s1 := mem_write ops s pos lo
  mem_write ops s1 ((pos + 1) % 65536) hi

def stack_pop (s : CPU B) : Nat × CPU B :=
  let s1 := { s with stack_pointer := (s.stack_pointer + 1) % 256 }
  mem_read ops s1 (0x100 + s1.stack_pointer)

def stack_push (s : CPU B) (data : Nat) : CPU B :=
  let s1 := mem_write ops s (0x100 + s.stack_pointer) data
  { s1 with stack_pointer := (s1.stack_pointer + 255) % 256 }

def stack_push_u16 (s : CPU B) (data : Nat) : CPU B :=
  let hi := (data >>> 8) % 256
  let lo := data &&& 0xff
  let s1 := stack_push ops s hi
  stack_push ops s1 lo

def stack_pop_u16 (s : CPU B) : Nat × CPU B :=
  let rlo := stack_pop ops s
  let rhi := stack_pop ops rlo.2
  ((rhi.1 <<< 8) ||| rlo.1, rhi.2)

def get_flag (s : CPU B) (flag : Nat) : Bool := decide (0 < s.status &&& flag)

def set_flag (s : CPU B) (flag : Nat) (value : Bool) : CPU B :=
  if value then { s with status := s.status ||| flag }
  else { s with status := s.status &&& (255 ^^^ flag) }

def update_zero_and_negative_flags (s : CPU B) (result : Nat) : CPU B :=
  let s1 := set_flag s StatusFlag.Zero (decide (result = 0))
  set_flag s1 StatusFlag.Negative (decide (result &&& 0b10000000 ≠ 0))

def get_operand_address (s : CPU B) (mode : AddressingMode) : Option (Nat × CPU B) :=
  match mode with
  | AddressingMode.Accumulator => some (0, s)
  | AddressingMode.Immediate => some (s.program_counter, s)
  | AddressingMode.ZeroPage => some (mem_read ops s s.program_counter)
  | AddressingMode.Absolute => some (mem_read_u16 ops s s.program_counter)
  | AddressingMode.ZeroPage_X =>
    let r := mem_read ops s s.program_counter
    some ((r.1 + r.2.register_x) % 256, r.2)
  | AddressingMode.ZeroPage_Y =>
    let r := mem_read ops s s.program_counter
    some ((r.1 + r.2.register_y) % 256, r.2)
  | AddressingMode.Absolute_X =>
    let r := mem_read_u16 ops s s.program_counter
    some ((r.1 + r.2.register_x) % 65536, r.2)
  | AddressingMode.Absolute_Y =>
    let r := mem_read_u16 ops s s.program_counter
    some ((r.1 + r.2.register_y) % 65536, r.2)
  | AddressingMode.Indirect_X =>
    let rb := mem_read ops s s.program_counter
    let ptr := (rb.1 + rb.2.register_x) % 256
    let rlo := mem_read ops rb.2 ptr
    let rhi := mem_read ops rlo.2 ((ptr + 1) % 256)
    some ((rhi.1 <<< 8) ||| rlo.1, rhi.2)
  | AddressingMode.Indirect_Y =>
    let rb := mem_read ops s s.program_counter
    let rlo := mem_read ops rb.2 rb.1
    let rhi := mem_read ops rlo.2 ((rb.1 + 1) % 256)
    let deref_base := (rhi.1 <<< 8) ||| rlo.1
    some ((deref_base + rhi.2.register_y) % 65536, rhi.2)
  | AddressingMode.NoneAddressing => none

def add_to_register_a (s : CPU B) (data : Nat) : CPU B :=
  let sum := s.register_a + data + (if get_flag s StatusFlag.Carry then 1 else 0)
  let carry := decide (0xff < sum)
  let s1 := set_flag s StatusFlag.Carry carry
  let result := sum % 256
  let s2 := set_flag s1 StatusFlag.Overflow
    (decide ((data ^^^ result) &&& (result ^^^ s1.register_a) &&& 0x80 ≠ 0))
  let s3 := { s2 with register_a := result }
  update_zero_and_negative_flags s3 s3.register_a

def branch (s : CPU B) (condition : Bool) : CPU B :=
  if condition then
    let r := mem_read ops s s.program_counter
    let offset16 := if r.1 < 128 then r.1 else r.1 + 0xff00
    { r.2 with program_counter := (r.2.program_counter + 1 + offset16) % 65536 }
  else s

def bit_test (s : CPU B) (mode : AddressingMode) : Option (CPU B) :=
  (get_operand_address ops s mode).map fun p =>
    let r := mem_read ops p.2 p.1
    let s1 := set_flag r.2 StatusFlag.Zero (decide (r.2.register_a &&& r.1 = 0))
    let s2 := set_flag s1 StatusFlag.Negative (decide (0 < r.1 &&& 0b10000000))
    set_flag s2 StatusFlag.Overflow (decide (0 < r.1 &&& 0b01000000))

def lda (s : CPU B) (mode : AddressingMode) : Option (CPU B) :=
  (get_operand_address ops s mode).map fun p =>
    let r := mem_read ops p.2 p.1
    let s1 := { r.2 with register_a := r.1 }
    update_zero_and_negative_flags s1 s1.register_a

def sta (s : CPU B) (mode : AddressingMode) : Option (CPU B) :=
  (get_operand_address ops s mode).map fun p => mem_write ops p.2 p.1 p.2.register_a

def adc (s : CPU B) (mode : AddressingMode) : Option (CPU B) :=
  (get_operand_address ops s mode).map fun p =>
    let r := mem_read ops p.2 p.1
    add_to_register_a r.2 r.1

def andInstr (s : CPU B) (mode : AddressingMode) : Option (CPU B) :=
  (get_operand_address ops s mode).map fun p =>
    let r := mem_read ops p.2 p.1
    let s1 := { r.2 with register_a := r.2.register_a &&& r.1 }
    update_zero_and_negative_flags s1 s1.register_a

def asl_accumulator (s : CPU B) : CPU B :=
  let data := s.register_a
  let s1 := set_flag s StatusFlag.Carry (decide (data >>> 7 = 1))
  let data1 := (data <<< 1) % 256
  let s2 := { s1 with register_a := data1 }
  update_zero_and_negative_flags s2 data1

def asl (s : CPU B) (mode : AddressingMode) : Option (CPU B) :=
  (get_operand_address ops s mode).map fun p =>
    let r := mem_read ops p.2 p.1
    let s1 := set_flag r.2 StatusFlag.Carry (decide (r.1 >>> 7 = 1))
    let data1 := (r.1 <<< 1) % 256
    let s2 := mem_write ops s1 p.1 data1
    update_zero_and_negative_flags s2 data1

def cmp (s : CPU B) (mode : AddressingMode) : Option (CPU B) :=
  (get_operand_address ops s mode).map fun p =>
    let r := mem_read ops p.2 p.1
    let s1 := set_flag r.2 StatusFlag.Carry (decide (r.1 ≤ r.2.register_a))
    update_zero_and_negative_flags s1 ((s1.register_a + 256 - r.1) % 256)

def cpx (s : CPU B) (mode : AddressingMode) : Option (CPU B) :=
  (get_operand_address ops s mode).map fun p =>
    let r := mem_read ops p.2 p.1
    let s1 := set_flag r.2 StatusFlag.Carry (decide (r.1 ≤ r.2.register_x))
    update_zero_and_negative_flags s1 ((s1.register_x + 256 - r.1) % 256)

def cpy (s : CPU B) (mode : AddressingMode) : Option (CPU B) :=
  (get_operand_address ops s mode).map fun p =>
    let r := mem_read ops p.2 p.1
    let s1 := set_flag r.2 StatusFlag.Carry (decide (r.1 ≤ r.2.register_y))
    update_zero_and_negative_flags s1 ((s1.register_y + 256 - r.1) % 256)

def dec (s : CPU B) (mode : AddressingMode) : Option (CPU B) :=
  (get_operand_address ops s mode).map fun p =>
    let r := mem_read ops p.2 p.1
    let result := (r.1 + 255) % 256
    let s1 := mem_write ops r.2 p.1 result
    update_zero_and_negative_flags s1 result

def dex (s : CPU B) : CPU B :=
  let s1 := { s with register_x := (s.register_x + 255) % 256 }
  update_zero_and_negative_flags s1 s1.register_x

def dey (s : CPU B) : CPU B :=
  let s1 := { s with register_y := (s.register_y + 255) % 256 }
  update_zero_and_negative_flags s1 s1.register_y

def eor (s : CPU B) (mode : AddressingMode) : Option (CPU B) :=
  (get_operand_address ops s mode).map fun p =>
    let r := mem_read ops p.2 p.1
    let s1 := { r.2 with register_a := r.2.register_a ^^^ r.1 }
    update_zero_and_negative_flags s1 s1.register_a

def inc (s : CPU B) (mode : AddressingMode) : Option (CPU B) :=
  (get_operand_address ops s mode).map fun p =>
    let r := mem_read ops p.2 p.1
    let result := (r.1 + 1) % 256
    let s1 := mem_write ops r.2 p.1 result
    update_zero_and_negative_flags s1 result

def inx (s : CPU B) : CPU B :=
  let s1 := { s with register_x := (s.register_x + 1) % 256 }
  update_zero_and_negative_flags s1 s1.register_x

def iny (s : CPU B) : CPU B :=
  let s1 := { s with register_y := (s.register_y + 1) % 256 }
  update_zero_and_negative_flags s1 s1.register_y

def ldx (s : CPU B) (mode : AddressingMode) : Option (CPU B) :=
  (get_operand_address ops s mode).map fun p =>
    let r := mem_read ops p.2 p.1
    let s1 := { r.2 with register_x := r.1 }
    update_zero_and_negative_flags s1 s1.register_x

def ldy (s : CPU B) (mode : AddressingMode) : Option (CPU B) :=
  (get_operand_address ops s mode).map fun p =>
    let r := mem_read ops p.2 p.1
    let s1 := { r.2 with register_y := r.1 }
    update_zero_and_negative_flags s1 s1.register_y

def lsr_accumulator (s : CPU B) : CPU B :=
  let data := s.register_a
  let s1 := set_flag s StatusFlag.Carry (decide (data &&& 1 = 1))
  let data1 := data >>> 1
  let s2 := { s1 with register_a := data1 }
  update_zero_and_negative_flags s2 s2.register_a

def lsr (s : CPU B) (mode : AddressingMode) : Option (CPU B) :=
  (get_operand_address ops s mode).map fun p =>
    let r := mem_read ops p.2 p.1
    let s1 := set_flag r.2 StatusFlag.Carry (decide (r.1 &&& 1 = 1))
    let data1 := r.1 >>> 1
    let s2 := mem_write ops s1 p.1 data1
    update_zero_and_negative_flags s2 data1

def ora (s : CPU B) (mode : AddressingMode) : Option (CPU B) :=
  (get_operand_address ops s mode).map fun p =>
    let r := mem_read ops p.2 p.1
    let s1 := { r.2 with register_a := r.2.register_a ||| r.1 }
    update_zero_and_negative_flags s1 s1.register_a

def rol (s : CPU B) (mode : AddressingMode) : Option (CPU B) :=
  (get_operand_address ops s mode).map fun p =>
    let r := mem_read ops p.2 p.1
    let old_carry := get_flag r.2 StatusFlag.Carry
    let s1 := set_flag r.2 StatusFlag.Carry (decide (r.1 >>> 7 = 1))
    let data1 := (r.1 <<< 1) % 256
    let data2 := if old_carry then data1 ||| 1 else data1
    let s2 := mem_write ops s1 p.1 data2
    update_zero_and_negative_flags s2 data2

def rol_accumulator (s : CPU B) : CPU B :=
  let data := s.register_a
  let old_carry := get_flag s StatusFlag.Carry
  let s1 := set_flag s StatusFlag.Carry (decide (data >>> 7 = 1))
  let data1 := (data <<< 1) % 256
  let data2 := if old_carry then data1 ||| 1 else data1
  let s2 := { s1 with register_a := data2 }
  update_zero_and_negative_flags s2 s2.register_a

def ror (s : CPU B) (mode : AddressingMode) : Option (CPU B) :=
  (get_operand_address ops s mode).map fun p =>
    let r := mem_read ops p.2 p.1
    let old_carry := get_flag r.2 StatusFlag.Carry
    let s1 := set_flag r.2 StatusFlag.Carry (decide (r.1 &&& 1 = 1))
    let data1 := r.1 >>> 1
    let data2 := if old_carry then data1 ||| 0b10000000 else data1
    let s2 := mem_write ops s1 p.1 data2
    update_zero_and_negative_flags s2 data2

def ror_accumulator (s : CPU B) : CPU B :=
  let data := s.register_a
  let old_carry := get_flag s StatusFlag.Carry
  let s1 := set_flag s StatusFlag.Carry (decide (data &&& 1 = 1))
  let data1 := data >>> 1
  let data2 := if old_carry then data1 ||| 0b10000000 else data1
  let s2 := { s1 with register_a := data2 }
  update_zero_and_negative_flags s2 s2.register_a

def sbc (s : CPU B) (mode : AddressingMode) : Option (CPU B) :=
  (get_operand_address ops s mode).map fun p =>
    let r := mem_read ops p.2 p.1
    add_to_register_a r.2 (255 - r.1 % 256)

def stx (s : CPU B) (mode : AddressingMode) : Option (CPU B) :=
  (get_operand_address ops s mode).map fun p => mem_write ops p.2 p.1 p.2.register_x

def sty (s : CPU B) (mode : AddressingMode) : Option (CPU B) :=
  (get_operand_address ops s mode).map fun p => mem_write ops p.2 p.1 p.2.register_y

def tax (s : CPU B) : CPU B :=
  let s1 := { s with register_x := s.register_a }
  update_zero_and_negative_flags s1 s1.register_x

def tay (s : CPU B) : CPU B :=
  let s1 := { s with register_y := s.register_a }
  update_zero_and_negative_flags s1 s1.register_y

def tsx (s : CPU B) : CPU B :=
  let s1 := { s with register_x := s.stack_pointer }
  update_zero_and_negative_flags s1 s1.register_x

def txa (s : CPU B) : CPU B :=
  let s1 := { s with register_a := s.register_x }
  update_zero_and_negative_flags s1 s1.register_a

def txs (s : CPU B) : CPU B := { s with stack_pointer := s.register_x }

def tya (s : CPU B) : CPU B :=
  let s1 := { s with register_a := s.register_y }
  update_zero_and_negative_flags s1 s1.register_a

def lax (s : CPU B) (mode : AddressingMode) : Option (CPU B) :=
  (get_operand_address ops s mode).map fun p =>
    let r := mem_read ops p.2 p.1
    let s1 := { r.2 with register_a := r.1, register_x := r.1 }
    update_zero_and_negative_flags s1 s1.register_a

def sax (s : CPU B) (mode : AddressingMode) : Option (CPU B) :=
  (get_operand_address ops s mode).map fun p =>
    mem_write ops p.2 p.1 (p.2.register_a &&& p.2.register_x)

def dcp (s : CPU B) (mode : AddressingMode) : Option (CPU B) :=
  (get_operand_address ops s mode).map fun p =>
    let r := mem_read ops p.2 p.1
    let value := (r.1 + 255) % 256
    let s1 := mem_write ops r.2 p.1 value
    let s2 := set_flag s1 StatusFlag.Carry (decide (value ≤ s1.register_a))
    update_zero_and_negative_flags s2 ((s2.register_a + 256 - value) % 256)

def isb (s : CPU B) (mode : AddressingMode) : Option (CPU B) :=
  (get_operand_address ops s mode).map fun p =>
    let r := mem_read ops p.2 p.1
    let value := (r.1 + 1) % 256
    let s1 := mem_write ops r.2 p.1 value
    add_to_register_a s1 (255 - value)

def slo (s : CPU B) (mode : AddressingMode) : Option (CPU B) :=
  (get_operand_address ops s mode).map fun p =>
    let r := mem_read ops p.2 p.1
    let s1 := set_flag r.2 StatusFlag.Carry (decide (r.1 >>> 7 = 1))
    let value := (r.1 <<< 1) % 256
    let s2 := mem_write ops s1 p.1 value
    let s3 := { s2 with register_a := s2.register_a ||| value }
    update_zero_and_negative_flags s3 s3.register_a

def rla (s : CPU B) (mode : AddressingMode) : Option (CPU B) :=
  (rol ops s mode).bind fun s1 =>
    (get_operand_address ops s1 mode).map fun p =>
      let r := mem_read ops p.2 p.1
      { r.2 with register_a := r.2.register_a &&& r.1 }

def sre (s : CPU B) (mode : AddressingMode) : Option (CPU B) :=
  (get_operand_address ops s mode).map fun p =>
    let r := mem_read ops p.2 p.1
    let s1 := set_flag r.2 StatusFlag.Carry (decide (r.1 &&& 1 = 1))
    let value := r.1 >>> 1
    let s2 := mem_write ops s1 p.1 value
    let s3 := { s2 with register_a := s2.register_a ^^^ value }
    update_zero_and_negative_flags s3 s3.register_a

def rra (s : CPU B) (mode : AddressingMode) : Option (CPU B) :=
  (ror ops s mode).bind fun s1 =>
    (get_operand_address ops s1 mode).map fun p =>
      let r := mem_read ops p.2 p.1
      add_to_register_a r.2 r.1

def brk (s : CPU B) : CPU B :=
  let s1 := { s with program_counter := (s.program_counter + 1) % 65536 }
  let s2 := stack_push_u16 ops s1 s1.program_counter
  let s3 := set_flag s2 StatusFlag.Break true
  let s4 := stack_push ops s3 s3.status
  let r := mem_read_u16 ops s4 0xfffe
  { r.2 with program_counter := r.1 }

def interrupt (s : CPU B) (i : Interrupt) : CPU B :=
  let s1 := stack_push_u16 ops s s.program_counter
  let flag := s1.status
  let flag1 := if i.b_flag_mask &&& 0b010000 = 1 then flag ||| 0b010000 else flag
  let flag2 := if i.b_flag_mask &&& 0b100000 = 1 then flag1 ||| 0b100000 else flag1
  let s2 := stack_push ops s1 flag2
  let s3 := set_flag s2 StatusFlag.InterruptDisable true
  let s4 := { s3 with bus := ops.tick s3.bus i.cpu_cycles }
  let r := mem_read_u16 ops s4 i.vector_addr
  { r.2 with program_counter := r.1 }

def reset (s : CPU B) : CPU B :=
  let s1 := { s with register_a := 0, register_x := 0, register_y := 0,
                     stack_pointer := 0xfd, status := 0b100100 }
  let r := mem_read_u16 ops s1 0xfffc
  { r.2 with program_counter := r.1 }

def loadAt : Nat → List Nat → CPU B → CPU B
  | _, [], s => s
  | i, v :: rest, s => loadAt (i + 1) rest (mem_write ops s ((0x8000 + i) % 65536) v)

def load (s : CPU B) (program : List Nat) : CPU B :=
  let s1 := loadAt ops 0 program s
  mem_write_u16 ops s1 0x1ffc 0x8600

/-- One dispatch arm of run_with_callback in src/cpu.rs: execute the opcode
byte with the addressing mode the table supplied, testing the opcode byte
against each match arm in source order.  An unrecognised opcode is a fatal
error (none). -/
def execCode (s : CPU B) (code : Nat) (mode : AddressingMode) : Option (CPU B) :=
  if code = 0xa9 ∨ code = 0xa5 ∨ code = 0xb5 ∨ code = 0xad ∨ code = 0xbd ∨ code = 0xb9 ∨ code = 0xa1 ∨ code = 0xb1 then
    lda ops s mode
  else if code = 0x69 ∨ code = 0x65 ∨ code = 0x75 ∨ code = 0x6d ∨ code = 0x7d ∨ code = 0x79 ∨ code = 0x61 ∨ code = 0x71 then
    adc ops s mode
  else if code = 0x29 ∨ code = 0x25 ∨ code = 0x35 ∨ code = 0x2d ∨ code = 0x3d ∨ code = 0x39 ∨ code = 0x21 ∨ code = 0x31 then
    andInstr ops s mode
  else if code = 0x0a then
    some (asl_accumulator s)
  else if code = 0x06 ∨ code = 0x16 ∨ code = 0x0e ∨ code = 0x1e then
    asl ops s mode
  else if code = 0x90 then
    some (branch ops s (!get_flag s StatusFlag.Carry))
  else if code = 0xb0 then
    some (branch ops s (get_flag s StatusFlag.Carry))
  else if code = 0xf0 then
    some (branch ops s (get_flag s StatusFlag.Zero))
  else if code = 0x24 ∨ code = 0x2c then
    bit_test ops s mode
  else if code = 0x30 then
    some (branch ops s (get_flag s StatusFlag.Negative))
  else if code = 0xd0 then
    some (branch ops s (!get_flag s StatusFlag.Zero))
  else if code = 0x10 then
    some (branch ops s (!get_flag s StatusFlag.Negative))
  else if code = 0x50 then
    some (branch ops s (!get_flag s StatusFlag.Overflow))
  else if code = 0x70 then
    some (branch ops s (get_flag s StatusFlag.Overflow))
  else if code = 0x18 then
    some (set_flag s StatusFlag.Carry false)
  else if code = 0xd8 then
    some (set_flag s StatusFlag.DecimalMode false)
  else if code = 0x58 then
    some (set_flag s StatusFlag.InterruptDisable false)
  else if code = 0xb8 then
    some (set_flag s StatusFlag.Overflow false)
  else if code = 0xc9 ∨ code = 0xc5 ∨ code = 0xd5 ∨ code = 0xcd ∨ code = 0xdd ∨ code = 0xd9 ∨ code = 0xc1 ∨ code = 0xd1 then
    cmp ops s mode
  else if code = 0xe0 ∨ code = 0xe4 ∨ code = 0xec then
    cpx ops s mode
  else if code = 0xc0 ∨ code = 0xc4 ∨ code = 0xcc then
    cpy ops s mode
  else if code = 0xc6 ∨ code = 0xd6 ∨ code = 0xce ∨ code = 0xde then
    dec ops s mode
  else if code = 0xca then
    some (dex s)
  else if code = 0x88 then
    some (dey s)
  else if code = 0x49 ∨ code = 0x45 ∨ code = 0x55 ∨ code = 0x4d ∨ code = 0x5d ∨ code = 0x59 ∨ code = 0x41 ∨ code = 0x51 then
    eor ops s mode
  else if code = 0xe6 ∨ code = 0xf6 ∨ code = 0xee ∨ code = 0xfe then
    inc ops s mode
  else if code = 0xe8 then
    some (inx s)
  else if code = 0xc8 then
    some (iny s)
  else if code = 0x4c then
    (let r := mem_read_u16 ops s s.program_counter
    some { r.2 with program_counter := r.1 })
  else if code = 0x6c then
    (let r := mem_read_u16 ops s s.program_counter
    let ri :=
      if r.1 &&& 0x00ff = 0x00ff then
        let rlo := mem_read ops r.2 r.1
        let rhi := mem_read ops rlo.2 (r.1 &&& 0xff00)
        ((rhi.1 <<< 8) ||| rlo.1, rhi.2)
      else mem_read_u16 ops r.2 r.1
    some { ri.2 with program_counter := ri.1 })
  else if code = 0x20 then
    (let s1 := stack_push_u16 ops s ((s.program_counter + 2 - 1) % 65536)
    let r := mem_read_u16 ops s1 s1.program_counter
    some { r.2 with program_counter := r.1 })
  else if code = 0xa2 ∨ code = 0xa6 ∨ code = 0xb6 ∨ code = 0xae ∨ code = 0xbe then
    ldx ops s mode
  else if code = 0xa0 ∨ code = 0xa4 ∨ code = 0xb4 ∨ code = 0xac ∨ code = 0xbc then
    ldy ops s mode
  else if code = 0x4a then
    some (lsr_accumulator s)
  else if code = 0x46 ∨ code = 0x56 ∨ code = 0x4e ∨ code = 0x5e then
    lsr ops s mode
  else if code = 0xea then
    some s
  else if code = 0x09 ∨ code = 0x05 ∨ code = 0x15 ∨ code = 0x0d ∨ code = 0x1d ∨ code = 0x19 ∨ code = 0x01 ∨ code = 0x11 then
    ora ops s mode
  else if code = 0x48 then
    some (stack_push ops s s.register_a)
  else if code = 0x08 then
    some (stack_push ops s (s.status ||| 0b00110000))
  else if code = 0x68 then
    (let r := stack_pop ops s
    let s1 := { r.2 with register_a := r.1 }
    some (update_zero_and_negative_flags s1 s1.register_a))
  else if code = 0x28 then
    (let r := stack_pop ops s
    let s1 := { r.2 with status := r.1 }
    let s2 := set_flag s1 StatusFlag.Break false
    some (set_flag s2 StatusFlag.Break2 true))
  else if code = 0x2a then
    some (rol_accumulator s)
  else if code = 0x26 ∨ code = 0x36 ∨ code = 0x2e ∨ code = 0x3e then
    rol ops s mode
  else if code = 0x6a then
    some (ror_accumulator s)
  else if code = 0x66 ∨ code = 0x76 ∨ code = 0x6e ∨ code = 0x7e then
    ror ops s mode
  else if code = 0x40 then
    (let r := stack_pop ops s
    let s1 := { r.2 with status := r.1 }
    let s2 := set_flag s1 StatusFlag.Break false
    let s3 := set_flag s2 StatusFlag.Break2 true
    let rp := stack_pop_u16 ops s3
    some { rp.2 with program_counter := rp.1 })
  else if code = 0x60 then
    (let r := stack_pop_u16 ops s
    some { r.2 with program_counter := (r.1 + 1) % 65536 })
  else if code = 0xe9 ∨ code = 0xe5 ∨ code = 0xf5 ∨ code = 0xed ∨ code = 0xfd ∨ code = 0xf9 ∨ code = 0xe1 ∨ code = 0xf1 then
    sbc ops s mode
  else if code = 0x38 then
    some (set_flag s StatusFlag.Carry true)
  else if code = 0xf8 then
    some (set_flag s StatusFlag.DecimalMode true)
  else if code = 0x78 then
    some (set_flag s StatusFlag.InterruptDisable true)
  else if code = 0x85 ∨ code = 0x95 ∨ code = 0x8d ∨ code = 0x9d ∨ code = 0x99 ∨ code = 0x81 ∨ code = 0x91 then
    sta ops s mode
  else if code = 0x86 ∨ code = 0x96 ∨ code = 0x8e then
    stx ops s mode
  else if code = 0x84 ∨ code = 0x94 ∨ code = 0x8c then
    sty ops s mode
  else if code = 0xaa then
    some (tax s)
  else if code = 0xa8 then
    some (tay s)
  else if code = 0xba then
    some (tsx s)
  else if code = 0x8a then
    some (txa s)
  else if code = 0x9a then
    some (txs s)
  else if code = 0x98 then
    some (tya s)
  else if code = 0x00 then
    some (brk ops s)
  else if code = 0x04 ∨ code = 0x44 ∨ code = 0x64 ∨ code = 0x14 ∨ code = 0x34 ∨ code = 0x54 ∨ code = 0x74 ∨ code = 0xd4 ∨ code = 0xf4 ∨ code = 0x80 ∨ code = 0x82 ∨ code = 0x89 ∨ code = 0xc2 ∨ code = 0xe2 then
    some s
  else if code = 0x0c ∨ code = 0x1c ∨ code = 0x3c ∨ code = 0x5c ∨ code = 0x7c ∨ code = 0xdc ∨ code = 0xfc then
    some s
  else if code = 0x1a ∨ code = 0x3a ∨ code = 0x5a ∨ code = 0x7a ∨ code = 0xda ∨ code = 0xfa then
    some s
  else if code = 0xa7 ∨ code = 0xb7 ∨ code = 0xaf ∨ code = 0xbf ∨ code = 0xa3 ∨ code = 0xb3 then
    lax ops s mode
  else if code = 0x87 ∨ code = 0x97 ∨ code = 0x8f ∨ code = 0x83 then
    sax ops s mode
  else if code = 0xeb then
    sbc ops s AddressingMode.Immediate
  else if code = 0xc7 ∨ code = 0xd7 ∨ code = 0xcf ∨ code = 0xdf ∨ code = 0xdb ∨ code = 0xc3 ∨ code = 0xd3 then
    dcp ops s mode
  else if code = 0xe7 ∨ code = 0xf7 ∨ code = 0xef ∨ code = 0xff ∨ code = 0xfb ∨ code = 0xe3 ∨ code = 0xf3 then
    isb ops s mode
  else if code = 0x07 ∨ code = 0x17 ∨ code = 0x0f ∨ code = 0x1f ∨ code = 0x1b ∨ code = 0x03 ∨ code = 0x13 then
    slo ops s mode
  else if code = 0x27 ∨ code = 0x37 ∨ code = 0x2f ∨ code = 0x3f ∨ code = 0x3b ∨ code = 0x23 ∨ code = 0x33 then
    rla ops s mode
  else if code = 0x47 ∨ code = 0x57 ∨ code = 0x4f ∨ code = 0x5f ∨ code = 0x5b ∨ code = 0x43 ∨ code = 0x53 then
    sre ops s mode
  else if code = 0x67 ∨ code = 0x77 ∨ code = 0x6f ∨ code = 0x7f ∨ code = 0x7b ∨ code = 0x63 ∨ code = 0x73 then
    rra ops s mode
  else none

/-- One iteration of the run_with_callback loop in src/cpu.rs: service a
pending NMI, fetch and dispatch one opcode, tick the bus by the opcode cycle
count, and advance PC by length minus one when the handler did not move it.
A missing table entry (the expect on the opcode map) is a fatal error. -/
def step (table : Nat → Option OpCode) (s : CPU B) : Option (CPU B) :=
  let rn := ops.pollNmi s.bus
  let s0 := { s with bus := rn.2 }
  let s1 := match rn.1 with
    | some _ => interrupt ops s0 interruptNMI
    | none => s0
  let rc := mem_read ops s1 s1.program_counter
  let s2 := { rc.2 with program_counter := (rc.2.program_counter + 1) % 65536 }
  let program_counter_state := s2.program_counter
  match table rc.1 with
  | none => none
  | some opcode =>
    (execCode ops s2 rc.1 opcode.mode).map fun s3 =>
      let s4 := { s3 with bus := ops.tick s3.bus opcode.cycles }
      if program_counter_state = s4.program_counter then
        { s4 with program_counter := (s4.program_counter + (opcode.len - 1)) % 65536 }
      else s4

/-- The CPU states reachable from machine boot through the public entry
points: construction, load, reset, and iterations of the run loop. -/
inductive Reachable (table : Nat → Option OpCode) : CPU B → Prop where
  | boot : ∀ b, Reachable table (new b)
  | reset : ∀ {s}, Reachable table s → Reachable table (CPU.reset ops s)
  | load : ∀ {s} (program : List Nat), Reachable table s →
      Reachable table (CPU.load ops s program)
  | step : ∀ {s s1}, Reachable table s → CPU.step ops table s = some s1 →
      Reachable table s1

end CPU

/-! Concrete instantiations used to evaluate the code on explicit inputs. -/

/-- The property claim C8 tracks: bit 5 of the CPU status register is set. -/
def StatusBit5 {B : Type} (s : CPU B) : Prop := s.status &&& 32 = 32

/-- A concrete bus instantiation for closed evaluations: a plain byte memory
(the view the Mem trait gives the CPU) plus a log of the tick amounts the CPU
sent to the bus, so that cycle reporting is observable. -/
structure TickBus where
  mem : Nat → Nat
  ticks : List Nat

def TickBus.ops : BusOps TickBus :=
  { read := fun b a => (b.mem a, b)
    write := fun b a v => { b with mem := fun x => if x = a then v else b.mem x }
    tick := fun b n => { b with ticks := b.ticks ++ [n] }
    pollNmi := fun b => (none, b) }

/-- Trivial instantiation of the absent APU subcomponents, for closed
evaluations of bus behaviour that does not depend on them. -/
def unitApuOps : ApuOps Unit Unit Unit Unit Unit :=
  { pulseTickSequencer := fun u => u
    pulseTickQuarterFrame := fun u => u
    pulseTickHalfFrame := fun u => u
    pulseUpdatePendingLengthCounter := fun u => u
    triangleTickSequencer := fun u => u
    triangleTickQuarterFrame := fun u => u
    triangleTickHalfFrame := fun u => u
    triangleUpdatePendingLengthCounter := fun u => u
    noiseTickSequencer := fun u => u
    noiseTickQuarterFrame := fun u => u
    noiseTickHalfFrame := fun u => u
    noiseUpdatePendingLengthCounter := fun u => u
    dmcTickSequencer := fun u => u
    fcTick := fun u => (FrameResult.NoResult, u) }

def unitAPU : APU Unit Unit Unit Unit Unit Unit Unit :=
  { buffer := [], executed_cycles := 0, frame_counter := (), pulse_0 := (),
    pulse_1 := (), triangle := (), noise := (), dmc := (), filters := () }

def unitSample (s : APU Unit Unit Unit Unit Unit Unit Unit) :
    Unit × APU Unit Unit Unit Unit Unit Unit Unit := ((), s)

def unitCb (_ : NesPPU) (a : APU Unit Unit Unit Unit Unit Unit Unit) (j : Joypad) :
    APU Unit Unit Unit Unit Unit Unit Unit × Joypad := (a, j)

/-- A concrete bus over the trivial APU instantiation, with a fresh PPU. -/
def unitBus : Bus Unit Unit Unit Unit Unit Unit Unit :=
  { cpu_vram := fun _ => 0, prg_rom := [], ppu := NesPPU.new_empty_rom,
    apu := unitAPU, cycles := 0, joypad1 := Joypad.new }

/-- A CPU about to take an NMI: P holds 0x30 (B and bit 5 set, I clear, as
after a BRK), PC holds 0xabcd, and the NMI vector at 0xFFFA/0xFFFB points to
0x8012. -/
def cpuBeforeNMI : CPU TickBus :=
  { register_a := 0, register_x := 0, register_y := 0, status := 0x30,
    program_counter := 0xabcd, stack_pointer := 0xfd,
    bus := { mem := fun a => if a = 0xfffa then 0x12 else if a = 0xfffb then 0x80 else 0,
             ticks := [] } }

/-- A CPU about to execute the body of BRK (PC already past the opcode): P
holds 0x20 (I clear) and the IRQ/BRK vector at 0xFFFE/0xFFFF points to
0x1234. -/
def cpuBeforeBRK : CPU TickBus :=
  { register_a := 0, register_x := 0, register_y := 0, status := 0x20,
    program_counter := 0x8000, stack_pointer := 0xfd,
    bus := { mem := fun a => if a = 0xfffe then 0x34 else if a = 0xffff then 0x12 else 0,
             ticks := [] } }

/-! Helper lemmas about single bits of byte-sized values. -/

theorem and_two_pow_eq_iff (x i : Nat) : x &&& 2 ^ i = 2 ^ i ↔ x.testBit i = true := by
  have hp : 0 < 2 ^ i := Nat.pos_pow_of_pos i (by norm_num)
  rw [Nat.and_two_pow]
  cases h : x.testBit i <;> simp [h] <;> omega

theorem and_two_pow_eq_zero_iff (x i : Nat) : x &&& 2 ^ i = 0 ↔ x.testBit i = false := by
  have hp : 0 < 2 ^ i := Nat.pos_pow_of_pos i (by norm_num)
  rw [Nat.and_two_pow]
  cases h : x.testBit i <;> simp [h] <;> omega

theorem shiftRight_and_one (x i : Nat) : (x &&& (1 <<< i)) >>> i = (x >>> i) &&& 1 := by
  have h1 : (1 : Nat) <<< i = 2 ^ i := by rw [Nat.shiftLeft_eq, one_mul]
  rw [h1]
  apply Nat.eq_of_testBit_eq
  intro k
  simp only [Nat.testBit_and, Nat.testBit_shiftRight, Nat.testBit_two_pow]
  have h3 : Nat.testBit 1 k = decide (0 = k) := by
    have h5 : (2 ^ 0 : Nat) = 1 := by norm_num
    rw [← h5]
    exact Nat.testBit_two_pow
  rw [h3]
  rcases Nat.eq_zero_or_pos k with hk | hk
  · simp [hk]
  · have h4 : ¬(i = i + k) := by omega
    have h0 : ¬(0 = k) := by omega
    simp [h4, h0]

/-! Claim C9: joypad serial read protocol. -/

/-- The joypad state of scenario S6: strobe written clear, then Right, Left,
Select and B marked pressed. -/
def joypadS6 : Joypad :=
  ((((Joypad.new.write 0).set_button_pressed_status JoypadButton.Right
      true).set_button_pressed_status JoypadButton.Left
      true).set_button_pressed_status JoypadButton.Select
      true).set_button_pressed_status JoypadButton.ButtonB true

/-- Claim C9: with strobe clear, a read with the index at bit i (i at most 7)
returns bit i of the button status (bit 0 is A, bit 7 is Right, matching the
JoypadButton constants) and advances the index; a read past bit 7 returns 1
and leaves the state unchanged, so every later read returns 1 until a strobe
write resets the index; concretely, from the S6 state (Right, Left, Select
and B pressed) nine sequential reads return 0, 1, 1, 0, 0, 0, 1, 1 and then
1. -/
theorem c9_joypad_read (j : Joypad) (h : j.strobe = false) :
    (j.button_index ≤ 7 →
      Joypad.read j = ((j.button_status >>> j.button_index) &&& 1,
        { j with button_index := j.button_index + 1 })) ∧
    (7 < j.button_index → Joypad.read j = (1, j)) ∧
    (∀ d, d &&& 1 = 1 → (Joypad.write j d).button_index = 0) ∧
    (Joypad.readSeq joypadS6 9).1 = [0, 1, 1, 0, 0, 0, 1, 1, 1] := by
  refine ⟨?_, ?_, ?_, by decide⟩
  · intro hle
    rw [Joypad.read]
    rw [if_neg (by omega)]
    rw [shiftRight_and_one]
    simp [h, hle]
  · intro hgt
    rw [Joypad.read, if_pos hgt]
  · intro d hd
    rw [Joypad.write]
    simp [hd]

/-- Witness for C9 at a concrete joypad state. -/
theorem c9_joypad_read_witness :
    (Joypad.new.strobe = false) ∧
    (Joypad.new.button_index ≤ 7 →
      Joypad.read Joypad.new = ((Joypad.new.button_status >>> Joypad.new.button_index) &&& 1,
        { Joypad.new with button_index := Joypad.new.button_index + 1 })) ∧
    (7 < Joypad.new.button_index → Joypad.read Joypad.new = (1, Joypad.new)) ∧
    (∀ d, d &&& 1 = 1 → (Joypad.write Joypad.new d).button_index = 0) ∧
    (Joypad.readSeq joypadS6 9).1 = [0, 1, 1, 0, 0, 0, 1, 1, 1] :=
  ⟨rfl, c9_joypad_read Joypad.new rfl⟩

/-! Claim C5: nametable mirroring. -/

/-- Claim C5 as stated is false: under HORIZONTAL mirroring the code maps
nametable 3 down by 0x800, not by 0x400.  At address 0x2c05 (nametable 3) the
code yields vram index 0x405; the claim predicts 0xc05 minus 0x400, which is
0x805. -/
theorem c5_counterexample :
    NesPPU.mirror_vram_addr NesPPU.new_empty_rom 0x2c05 = 0x405 ∧
    ((0x2c05 &&& 0x2fff) - 0x2000) / 0x400 = 3 ∧
    NesPPU.new_empty_rom.mirroring = Mirroring.HORIZONTAL ∧
    NesPPU.mirror_vram_addr NesPPU.new_empty_rom 0x2c05 ≠
      ((0x2c05 &&& 0x2fff) - 0x2000) - 0x400 := by
  refine ⟨by decide, by decide, rfl, by decide⟩

/-- Claim C5, amended: the address is masked to 0x2fff and rebased at 0x2000,
nt is the quotient by 0x400; under HORIZONTAL mirroring nametables 1 and 2
map down by 0x400 and nametable 3 maps down by 0x800; under VERTICAL
mirroring nametables 2 and 3 map down by 0x800; everything else passes
through unchanged. -/
theorem c5_mirror_vram_addr (s : NesPPU) (addr : Nat)
    (h1 : 0x2000 ≤ addr) (h2 : addr ≤ 0x3eff) :
    NesPPU.mirror_vram_addr s addr =
      (let vram_index := (addr &&& 0x2fff) - 0x2000
       let nt := vram_index / 0x400
       match s.mirroring with
       | Mirroring.HORIZONTAL =>
         if nt = 1 ∨ nt = 2 then vram_index - 0x400
         else if nt = 3 then vram_index - 0x800
         else vram_index
       | Mirroring.VERTICAL =>
         if nt = 2 ∨ nt = 3 then vram_index - 0x800
         else vram_index) := by
  simp only [NesPPU.mirror_vram_addr]
  norm_num
  set v := (addr &&& 12287) - 8192 with hv
  clear_value v
  cases hm : s.mirroring <;> split_ifs <;> simp_all

/-- Witness for C5 at nametable 3, horizontal mirroring. -/
theorem c5_mirror_vram_addr_witness :
    (0x2000 ≤ 0x2c05 ∧ 0x2c05 ≤ 0x3eff) ∧
    NesPPU.mirror_vram_addr NesPPU.new_empty_rom 0x2c05 =
      (let vram_index := (0x2c05 &&& 0x2fff) - 0x2000
       let nt := vram_index / 0x400
       match NesPPU.new_empty_rom.mirroring with
       | Mirroring.HORIZONTAL =>
         if nt = 1 ∨ nt = 2 then vram_index - 0x400
         else if nt = 3 then vram_index - 0x800
         else vram_index
       | Mirroring.VERTICAL =>
         if nt = 2 ∨ nt = 3 then vram_index - 0x800
         else vram_index) :=
  ⟨⟨by norm_num, by norm_num⟩,
   c5_mirror_vram_addr NesPPU.new_empty_rom 0x2c05 (by norm_num) (by norm_num)⟩

/-! More helpers: extracting a single bit from masked byte expressions. -/

theorem and_single_eq (x m i : Nat) (hm : m = 2 ^ i) (hx : x.testBit i = true) :
    x &&& m = m := by
  subst hm
  rw [Nat.and_two_pow, hx]
  simp

theorem and_single_zero (x m i : Nat) (hm : m = 2 ^ i) (hx : x.testBit i = false) :
    x &&& m = 0 := by
  subst hm
  rw [Nat.and_two_pow, hx]
  simp

/-! Claim C6: reading the PPU status register. -/

/-- Claim C6: reading the status register returns the current status byte and
then clears the VBlank bit (bit 7), resets the address latch (the next write
is a high byte again) and resets the scroll latch, leaving every other field
of the PPU unchanged. -/
theorem c6_read_status (s : NesPPU) :
    NesPPU.read_status s =
      (s.status,
       { s with status := s.status &&& 0x7f,
                addr := { s.addr with hi_ptr := true },
                scroll := { s.scroll with latch := false } }) := by
  have h : (255 ^^^ 128 : Nat) = 127 := by decide
  simp [NesPPU.read_status, NesPPU.set_status, AddrRegister.reset_latch,
    ScrollRegister.reset_latch, StatusFlags.VBlankStarted, h]

/-! Projection lemmas for the PPU status updates. -/

@[simp] theorem NesPPU.set_status_chr_rom (t : NesPPU) (f : Nat) (v : Bool) :
    (t.set_status f v).chr_rom = t.chr_rom := by
  rw [NesPPU.set_status]; split <;> rfl

@[simp] theorem NesPPU.set_status_palette_table (t : NesPPU) (f : Nat) (v : Bool) :
    (t.set_status f v).palette_table = t.palette_table := by
  rw [NesPPU.set_status]; split <;> rfl

@[simp] theorem NesPPU.set_status_vram (t : NesPPU) (f : Nat) (v : Bool) :
    (t.set_status f v).vram = t.vram := by
  rw [NesPPU.set_status]; split <;> rfl

@[simp] theorem NesPPU.set_status_oam_addr (t : NesPPU) (f : Nat) (v : Bool) :
    (t.set_status f v).oam_addr = t.oam_addr := by
  rw [NesPPU.set_status]; split <;> rfl

@[simp] theorem NesPPU.set_status_oam_data (t : NesPPU) (f : Nat) (v : Bool) :
    (t.set_status f v).oam_data = t.oam_data := by
  rw [NesPPU.set_status]; split <;> rfl

@[simp] theorem NesPPU.set_status_addr (t : NesPPU) (f : Nat) (v : Bool) :
    (t.set_status f v).addr = t.addr := by
  rw [NesPPU.set_status]; split <;> rfl

@[simp] theorem NesPPU.set_status_mirroring (t : NesPPU) (f : Nat) (v : Bool) :
    (t.set_status f v).mirroring = t.mirroring := by
  rw [NesPPU.set_status]; split <;> rfl

@[simp] theorem NesPPU.set_status_ctrl (t : NesPPU) (f : Nat) (v : Bool) :
    (t.set_status f v).ctrl = t.ctrl := by
  rw [NesPPU.set_status]; split <;> rfl

@[simp] theorem NesPPU.set_status_mask (t : NesPPU) (f : Nat) (v : Bool) :
    (t.set_status f v).mask = t.mask := by
  rw [NesPPU.set_status]; split <;> rfl

@[simp] theorem NesPPU.set_status_scroll (t : NesPPU) (f : Nat) (v : Bool) :
    (t.set_status f v).scroll = t.scroll := by
  rw [NesPPU.set_status]; split <;> rfl

@[simp] theorem NesPPU.set_status_scanline (t : NesPPU) (f : Nat) (v : Bool) :
    (t.set_status f v).scanline = t.scanline := by
  rw [NesPPU.set_status]; split <;> rfl

@[simp] theorem NesPPU.set_status_cycles (t : NesPPU) (f : Nat) (v : Bool) :
    (t.set_status f v).cycles = t.cycles := by
  rw [NesPPU.set_status]; split <;> rfl

@[simp] theorem NesPPU.set_status_internal_data_buf (t : NesPPU) (f : Nat) (v : Bool) :
    (t.set_status f v).internal_data_buf = t.internal_data_buf := by
  rw [NesPPU.set_status]; split <;> rfl

@[simp] theorem NesPPU.set_status_nmi_interrupt (t : NesPPU) (f : Nat) (v : Bool) :
    (t.set_status f v).nmi_interrupt = t.nmi_interrupt := by
  rw [NesPPU.set_status]; split <;> rfl

@[simp] theorem NesPPU.get_flag_set_status (t : NesPPU) (f : Nat) (v : Bool) (g : Nat) :
    (t.set_status f v).get_flag g = t.get_flag g := by
  rw [NesPPU.get_flag, NesPPU.get_flag, NesPPU.set_status_ctrl]

@[simp] theorem NesPPU.get_flag_mk (c : List Nat) (p v : Nat → Nat) (oa : Nat)
    (od : Nat → Nat) (ad : AddrRegister) (mi : Mirroring) (ct ms st : Nat)
    (sc : ScrollRegister) (sl cy ib : Nat) (ni : Option Nat) (fl : Nat) :
    (NesPPU.mk c p v oa od ad mi ct ms st sc sl cy ib ni).get_flag fl =
      decide (0 < ct &&& fl) := rfl

theorem NesPPU.set_status_status_true (t : NesPPU) (f : Nat) :
    (t.set_status f true).status = t.status ||| f := by
  rw [NesPPU.set_status]; rfl

theorem NesPPU.set_status_status_false (t : NesPPU) (f : Nat) :
    (t.set_status f false).status = t.status &&& (255 ^^^ f) := by
  rw [NesPPU.set_status]; rfl

/-- After setting bit 7 and clearing bit 6, bit 7 is set. -/
theorem set_then_clear_bit7 (x : Nat) : ((x ||| 128) &&& 191) &&& 128 = 128 := by
  apply and_single_eq _ _ 7 (by norm_num)
  rw [Nat.testBit_and, Nat.testBit_or]
  rw [show Nat.testBit 128 7 = true from by decide, show Nat.testBit 191 7 = true from by decide]
  simp

/-- After clearing bit 6 and then bit 7, bit 7 is clear. -/
theorem clear_clear_bit7 (x : Nat) : ((x &&& 191) &&& 127) &&& 128 = 0 := by
  apply and_single_zero _ _ 7 (by norm_num)
  rw [Nat.testBit_and, Nat.testBit_and]
  rw [show Nat.testBit 127 7 = false from by decide]
  simp

/-- After clearing bit 6 and then bit 7, bit 6 is clear. -/
theorem clear_clear_bit6 (x : Nat) : ((x &&& 191) &&& 127) &&& 64 = 0 := by
  apply and_single_zero _ _ 6 (by norm_num)
  rw [Nat.testBit_and, Nat.testBit_and]
  rw [show Nat.testBit 191 6 = false from by decide]
  simp

/-! Claim C4: PPU scanline/dot timing. -/

/-- Claim C4: adding the tick amount to the dot counter, if it stays below
341 nothing else changes and tick returns false; once it crosses 341 the
counter wraps by subtracting 341 and the scanline increments; on entering
scanline 241 VBlank is set and, exactly when the NMI-enable control bit is
set, a pending NMI is latched, with tick still returning false; when the
scanline passes 261 it wraps to 0, VBlank and sprite-zero-hit are cleared,
the pending NMI is dropped and tick returns true; in every other case tick
returns false and leaves status and NMI alone. -/
theorem c4_ppu_tick (s : NesPPU) (n : Nat) (hn : n < 256) :
    (s.cycles + n < 341 →
      NesPPU.tick s n = (false, { s with cycles := s.cycles + n })) ∧
    (341 ≤ s.cycles + n →
      (NesPPU.tick s n).2.cycles = s.cycles + n - 341 ∧
      ((s.scanline + 1) % 65536 = 241 →
        (NesPPU.tick s n).2.scanline = 241 ∧
        (NesPPU.tick s n).2.status &&& 128 = 128 ∧
        (s.get_flag ControlFlags.GenerateNMI = true →
          (NesPPU.tick s n).2.nmi_interrupt = some 1) ∧
        (s.get_flag ControlFlags.GenerateNMI = false →
          (NesPPU.tick s n).2.nmi_interrupt = s.nmi_interrupt) ∧
        (NesPPU.tick s n).1 = false) ∧
      (262 ≤ (s.scanline + 1) % 65536 →
        (NesPPU.tick s n).2.scanline = 0 ∧
        (NesPPU.tick s n).2.status &&& 128 = 0 ∧
        (NesPPU.tick s n).2.status &&& 64 = 0 ∧
        (NesPPU.tick s n).2.nmi_interrupt = none ∧
        (NesPPU.tick s n).1 = true) ∧
      ((s.scanline + 1) % 65536 ≠ 241 → (s.scanline + 1) % 65536 < 262 →
        (NesPPU.tick s n).2.scanline = (s.scanline + 1) % 65536 ∧
        (NesPPU.tick s n).2.status = s.status ∧
        (NesPPU.tick s n).2.nmi_interrupt = s.nmi_interrupt ∧
        (NesPPU.tick s n).1 = false)) := by
  have hb1 : (255 ^^^ StatusFlags.SpriteZeroHit : Nat) = 191 := by decide
  have hb2 : (255 ^^^ StatusFlags.VBlankStarted : Nat) = 127 := by decide
  have hvb : StatusFlags.VBlankStarted = 128 := rfl
  constructor
  · intro hlt
    rw [NesPPU.tick]
    dsimp only
    rw [if_neg (by omega)]
  · intro hge
    rw [NesPPU.tick]
    dsimp only
    rw [if_pos (show (341 : Nat) ≤ s.cycles + n by omega)]
    by_cases h241 : (s.scanline + 1) % 65536 = 241
    · rw [if_pos h241]
      have hlt262 : ¬((262 : Nat) ≤ (s.scanline + 1) % 65536) := by omega
      by_cases hnmi : s.get_flag ControlFlags.GenerateNMI = true
      · have hnmi2 := hnmi
        rw [NesPPU.get_flag] at hnmi2
        simp only [NesPPU.get_flag_set_status, NesPPU.get_flag_mk]
        rw [if_pos hnmi2]
        try simp only [NesPPU.set_status_scanline]
        try dsimp only
        rw [if_neg hlt262]
        refine ⟨by simp, fun _ => ⟨by simp [h241], ?_, fun _ => by simp,
          fun hf => absurd hnmi (by simp [hf]), rfl⟩,
          fun hc => absurd hc hlt262, fun hne _ => absurd h241 hne⟩
        simp only [NesPPU.set_status_status_false,
          NesPPU.set_status_status_true, hb1, hvb]
        exact set_then_clear_bit7 s.status
      · have hnmi2 := hnmi
        rw [NesPPU.get_flag] at hnmi2
        simp only [NesPPU.get_flag_set_status, NesPPU.get_flag_mk]
        rw [if_neg hnmi2]
        try simp only [NesPPU.set_status_scanline]
        try dsimp only
        rw [if_neg hlt262]
        refine ⟨by simp, fun _ => ⟨by simp [h241], ?_,
          fun ht => absurd ht hnmi, fun _ => by simp, rfl⟩,
          fun hc => absurd hc hlt262, fun hne _ => absurd h241 hne⟩
        simp only [NesPPU.set_status_status_false,
          NesPPU.set_status_status_true, hb1, hvb]
        exact set_then_clear_bit7 s.status
    · rw [if_neg h241]
      try dsimp only
      by_cases h262 : (262 : Nat) ≤ (s.scanline + 1) % 65536
      · rw [if_pos h262]
        refine ⟨by simp, fun hc => absurd hc h241, fun _ => ⟨by simp, ?_, ?_, by simp, rfl⟩,
          fun _ hlt => absurd h262 (by omega)⟩
        · simp only [NesPPU.set_status_status_false, hb1, hb2]
          exact clear_clear_bit7 s.status
        · simp only [NesPPU.set_status_status_false, hb1, hb2]
          exact clear_clear_bit6 s.status
      · rw [if_neg h262]
        exact ⟨rfl, fun hc => absurd hc h241, fun hc => absurd hc h262,
          fun _ _ => ⟨rfl, rfl, rfl, rfl⟩⟩

/-! Claims C7 and C10: PPU data port reads and writes. -/

/-- The nametable mirroring function always lands inside the 2 KiB VRAM. -/
theorem mirror_vram_addr_lt (s : NesPPU) (addr : Nat) : s.mirror_vram_addr addr < 2048 := by
  have h : addr &&& 12287 ≤ 12287 := Nat.and_le_right
  simp only [NesPPU.mirror_vram_addr]
  cases s.mirroring <;> split_ifs <;> simp_all <;> omega

/-- The PPU state reached from a fresh PPU by writing 0x30 then 0x00 to the
address port: the address register holds 0x3000, inside the range the claim
calls buffered. -/
def ppuAt3000 : NesPPU :=
  (NesPPU.new_empty_rom.write_to_ppu_addr 0x30).write_to_ppu_addr 0x00

/-- Claim C7 as stated is false: a data read with the address register at
0x3000 (which lies in 0x0000-0x3EFF) does not return a buffered value, it
aborts (the source panics on 0x3000-0x3EFF). -/
theorem c7_counterexample :
    ppuAt3000.addr.get = 0x3000 ∧ 0x3000 ≤ 0x3eff ∧
    NesPPU.read_data ppuAt3000 = none := by
  refine ⟨by decide, by norm_num, ?_⟩
  rfl

/-- Claim C7, amended: buffered reads cover 0x0000-0x2FFF only (0x0000-0x1FFF
from CHR ROM, 0x2000-0x2FFF from mirrored VRAM) and direct palette reads
cover 0x3F00-0x3F1F only (with the four mirror slots aliased down by 0x10);
every data-port access with the address register anywhere in 0x3000-0x3EFF
aborts instead of being buffered, for reads and writes alike; every data
read or write that completes moves the address register by the increment
selected by the control bit (1 when clear, 32 when set). -/
theorem c7_read_write_data (s : NesPPU) (v : Nat) :
    (∀ chrv, s.addr.get ≤ 0x1fff → s.chr_rom.get? s.addr.get = some chrv →
      NesPPU.read_data s = some (s.internal_data_buf,
        { s with addr := s.addr.increment s.vram_addr_increment,
                 internal_data_buf := chrv })) ∧
    (0x2000 ≤ s.addr.get → s.addr.get ≤ 0x2fff →
      NesPPU.read_data s = some (s.internal_data_buf,
        { s with addr := s.addr.increment s.vram_addr_increment,
                 internal_data_buf := s.vram (s.mirror_vram_addr s.addr.get) })) ∧
    (s.addr.get = 0x3f10 ∨ s.addr.get = 0x3f14 ∨ s.addr.get = 0x3f18 ∨ s.addr.get = 0x3f1c →
      NesPPU.read_data s = some (s.palette_table ((s.addr.get - 0x10) - 0x3f00),
        { s with addr := s.addr.increment s.vram_addr_increment })) ∧
    (0x3f00 ≤ s.addr.get → s.addr.get ≤ 0x3f1f →
      ¬(s.addr.get = 0x3f10 ∨ s.addr.get = 0x3f14 ∨ s.addr.get = 0x3f18 ∨ s.addr.get = 0x3f1c) →
      NesPPU.read_data s = some (s.palette_table (s.addr.get - 0x3f00),
        { s with addr := s.addr.increment s.vram_addr_increment })) ∧
    (0x3000 ≤ s.addr.get → s.addr.get ≤ 0x3eff → NesPPU.read_data s = none) ∧
    (0x3000 ≤ s.addr.get → s.addr.get ≤ 0x3eff → NesPPU.write_to_data s v = none) ∧
    (∀ r s1, NesPPU.read_data s = some (r, s1) →
      s1.addr = s.addr.increment s.vram_addr_increment) ∧
    (∀ s1, NesPPU.write_to_data s v = some s1 →
      s1.addr = s.addr.increment s.vram_addr_increment) ∧
    (s.get_flag ControlFlags.VramAddIncrement = true → s.vram_addr_increment = 32) ∧
    (s.get_flag ControlFlags.VramAddIncrement = false → s.vram_addr_increment = 1) := by
  refine ⟨?_, ?_, ?_, ?_, ?_, ?_, ?_, ?_, ?_, ?_⟩
  · intro chrv hle hget
    simp only [NesPPU.read_data, NesPPU.increment_vram_addr]
    rw [if_pos hle, hget]
  · intro hge hle
    simp only [NesPPU.read_data, NesPPU.increment_vram_addr]
    rw [if_neg (by omega), if_pos (by omega), if_pos (mirror_vram_addr_lt _ s.addr.get)]
    rfl
  · intro hmir
    simp only [NesPPU.read_data, NesPPU.increment_vram_addr]
    rw [if_neg (by omega), if_neg (by omega), if_neg (by omega), if_pos hmir,
      if_pos (by omega)]
  · intro hge hle hnm
    simp only [NesPPU.read_data, NesPPU.increment_vram_addr]
    rw [if_neg (by omega), if_neg (by omega), if_neg (by omega), if_neg hnm,
      if_pos (by omega), if_pos (by omega)]
  · intro hge hle
    simp only [NesPPU.read_data, NesPPU.increment_vram_addr]
    rw [if_neg (by omega), if_neg (by omega), if_pos (by omega)]
  · intro hge hle
    simp only [NesPPU.write_to_data]
    rw [if_neg (by omega), if_neg (by omega), if_pos (by omega)]
    rfl
  · intro r s1 h
    revert h
    simp only [NesPPU.read_data, NesPPU.increment_vram_addr]
    by_cases hA : s.addr.get ≤ 0x1fff
    · rw [if_pos hA]
      cases hc : s.chr_rom.get? s.addr.get <;> intro h
      · exact absurd h (by simp)
      · simp only [Option.some.injEq, Prod.mk.injEq] at h
        obtain ⟨-, h2⟩ := h
        subst h2
        rfl
    · rw [if_neg hA]
      split_ifs <;> intro h <;> simp_all <;>
        (obtain ⟨-, h2⟩ := h
         rw [← h2])
  · intro s1
    simp only [NesPPU.write_to_data]
    split_ifs <;> intro h <;> simp_all <;> subst h <;> rfl
  · intro h
    rw [NesPPU.vram_addr_increment, h]
    rfl
  · intro h
    rw [NesPPU.vram_addr_increment, h]
    rfl

/-- Witness for C7 at a concrete PPU whose address register is 0x0000. -/
theorem c7_read_write_data_witness :
    (∀ chrv, NesPPU.new_empty_rom.addr.get ≤ 0x1fff →
      NesPPU.new_empty_rom.chr_rom.get? NesPPU.new_empty_rom.addr.get = some chrv →
      NesPPU.read_data NesPPU.new_empty_rom = some (NesPPU.new_empty_rom.internal_data_buf,
        { NesPPU.new_empty_rom with
            addr := NesPPU.new_empty_rom.addr.increment NesPPU.new_empty_rom.vram_addr_increment,
            internal_data_buf := chrv })) ∧
    (NesPPU.new_empty_rom.get_flag ControlFlags.VramAddIncrement = false →
      NesPPU.new_empty_rom.vram_addr_increment = 1) :=
  ⟨(c7_read_write_data NesPPU.new_empty_rom 0).1,
   (c7_read_write_data NesPPU.new_empty_rom 0).2.2.2.2.2.2.2.2.2⟩

/-- The PPU state reached from a fresh PPU by writing 0x3f then 0x21 to the
address port through the public interface: the address register holds
0x3f21. -/
def ppuAt3f21 : NesPPU :=
  (NesPPU.new_empty_rom.write_to_ppu_addr 0x3f).write_to_ppu_addr 0x21

/-- Claim C10: with the address register anywhere in 0x3F20-0x3FFF (reachable
through two 0x2006 writes, as the witness shows), a data read or a data write
indexes the 32-byte palette table at an offset of at least 0x20, out of
bounds, and aborts. -/
theorem c10_palette_overflow_abort (s : NesPPU) (v : Nat)
    (h1 : 0x3f20 ≤ s.addr.get) (h2 : s.addr.get ≤ 0x3fff) :
    0x20 ≤ s.addr.get - 0x3f00 ∧
    NesPPU.read_data s = none ∧
    NesPPU.write_to_data s v = none := by
  refine ⟨by omega, ?_, ?_⟩
  · simp only [NesPPU.read_data]
    rw [if_neg (by omega), if_neg (by omega), if_neg (by omega), if_neg (by omega),
      if_pos (by omega), if_neg (by omega)]
  · simp only [NesPPU.write_to_data]
    rw [if_neg (by omega), if_neg (by omega), if_neg (by omega), if_neg (by omega),
      if_pos (by omega), if_neg (by omega)]
    rfl

/-- Witness for C10: the state reached by writing 0x3f then 0x21 to 0x2006
aborts on the next data access. -/
theorem c10_palette_overflow_abort_witness :
    (0x3f20 ≤ ppuAt3f21.addr.get ∧ ppuAt3f21.addr.get ≤ 0x3fff) ∧
    (0x20 ≤ ppuAt3f21.addr.get - 0x3f00 ∧
     NesPPU.read_data ppuAt3f21 = none ∧
     NesPPU.write_to_data ppuAt3f21 0 = none) :=
  ⟨⟨by decide, by decide⟩,
   c10_palette_overflow_abort ppuAt3f21 0 (by decide) (by decide)⟩

/-! Claim C1: NMI service.  The two branches of CPU::interrupt that should
apply the B-flag mask compare a bitwise AND against 1 and can never fire, so
the status byte is pushed unchanged: with P = 0x30 (B set, as it is after any
BRK) the pushed byte keeps B set instead of being 0x20 (B cleared, bit 5
set). -/

/-- Claim C1 evaluated at the failing input: servicing the NMI from the state
cpuBeforeNMI pushes PC high (0xab) then low (0xcd), then pushes the status
byte unchanged (0x30, B still set — the claim requires 0x20), sets the I
flag, ticks the bus by exactly 2 cycles, and loads PC from the little-endian
word at 0xFFFA. -/
theorem c1_nmi_pushes_raw_status :
    (CPU.interrupt TickBus.ops cpuBeforeNMI interruptNMI).bus.mem 0x1fd = 0xab ∧
    (CPU.interrupt TickBus.ops cpuBeforeNMI interruptNMI).bus.mem 0x1fc = 0xcd ∧
    (CPU.interrupt TickBus.ops cpuBeforeNMI interruptNMI).bus.mem 0x1fb = 0x30 ∧
    ((0x30 : Nat) &&& 0x10 ≠ 0) ∧
    (CPU.interrupt TickBus.ops cpuBeforeNMI interruptNMI).bus.mem 0x1fb ≠ 0x20 ∧
    (CPU.interrupt TickBus.ops cpuBeforeNMI interruptNMI).status = 0x34 ∧
    (CPU.interrupt TickBus.ops cpuBeforeNMI interruptNMI).stack_pointer = 0xfa ∧
    (CPU.interrupt TickBus.ops cpuBeforeNMI interruptNMI).bus.ticks = [2] ∧
    (CPU.interrupt TickBus.ops cpuBeforeNMI interruptNMI).program_counter = 0x8012 := by
  refine ⟨by decide, by decide, by decide, by decide, by decide, by decide, by decide,
    by decide, by decide⟩

/-! Claim C2: the BRK instruction. -/

/-- Claim C2 as stated is false: BRK does not set the I flag.  From
cpuBeforeBRK (I clear) the state after BRK still has I clear, while every
other effect of the claim occurred (PC+1 pushed, P pushed with B set, PC
loaded from 0xFFFE). -/
theorem c2_counterexample :
    cpuBeforeBRK.status &&& 4 = 0 ∧
    (CPU.brk TickBus.ops cpuBeforeBRK).status &&& 4 = 0 ∧
    (CPU.brk TickBus.ops cpuBeforeBRK).bus.mem 0x1fd = 0x80 ∧
    (CPU.brk TickBus.ops cpuBeforeBRK).bus.mem 0x1fc = 0x01 ∧
    (CPU.brk TickBus.ops cpuBeforeBRK).bus.mem 0x1fb = 0x30 ∧
    (CPU.brk TickBus.ops cpuBeforeBRK).program_counter = 0x1234 := by
  refine ⟨by decide, by decide, by decide, by decide, by decide, by decide⟩

/-- Auxiliary: setting bit 4 leaves bit 2 (the I flag) unchanged. -/
theorem or16_and4 (x : Nat) : (x ||| 16) &&& 4 = x &&& 4 := by
  rw [show (4 : Nat) = 2 ^ 2 by norm_num, Nat.and_two_pow, Nat.and_two_pow,
    Nat.testBit_or, show Nat.testBit 16 2 = false from by decide]
  simp

theorem CPU.set_flag_true {B : Type} (s : CPU B) (f : Nat) :
    CPU.set_flag s f true = { s with status := s.status ||| f } := rfl

theorem CPU.set_flag_false {B : Type} (s : CPU B) (f : Nat) :
    CPU.set_flag s f false = { s with status := s.status &&& (255 ^^^ f) } := rfl

/-- Claim C2, amended: executing the BRK opcode (with PC already one past the
opcode byte, as the run loop leaves it) increments PC by one extra byte,
pushes that PC high byte first and low byte second, pushes P with the B flag
set (the live status also keeps B set), and loads PC from the little-endian
word at 0xFFFE; the I flag is left unchanged. -/
theorem c2_brk (s : CPU TickBus) (hsp : s.stack_pointer < 256) :
    (CPU.brk TickBus.ops s).bus.mem (0x100 + s.stack_pointer) =
      (((s.program_counter + 1) % 65536) >>> 8) % 256 ∧
    (CPU.brk TickBus.ops s).bus.mem (0x100 + (s.stack_pointer + 255) % 256) =
      ((s.program_counter + 1) % 65536) &&& 0xff ∧
    (CPU.brk TickBus.ops s).bus.mem (0x100 + (s.stack_pointer + 254) % 256) =
      (s.status ||| 16) ∧
    (CPU.brk TickBus.ops s).status = s.status ||| 16 ∧
    (CPU.brk TickBus.ops s).stack_pointer = (s.stack_pointer + 253) % 256 ∧
    (CPU.brk TickBus.ops s).program_counter =
      (((s.bus.mem 0xffff % 256) <<< 8) ||| (s.bus.mem 0xfffe % 256)) ∧
    (CPU.brk TickBus.ops s).status &&& 4 = s.status &&& 4 := by
  dsimp only [CPU.brk, CPU.stack_push_u16, CPU.stack_push, CPU.mem_write, CPU.mem_read_u16,
    CPU.mem_read, CPU.set_flag_true, StatusFlag.Break, TickBus.ops]
  refine ⟨?_, ?_, ?_, ?_, ?_, ?_, ?_⟩
  · rw [if_neg (by omega), if_neg (by omega), if_pos rfl]
  · rw [if_neg (by omega), if_pos rfl]
  · rw [if_pos (by omega)]
  · rfl
  · omega
  · rw [if_neg (by omega), if_neg (by omega), if_neg (by omega), if_neg (by omega),
      if_neg (by omega), if_neg (by omega)]
  · rw [or16_and4]

/-- Witness for C2 at the concrete pre-BRK state. -/
theorem c2_brk_witness :
    (cpuBeforeBRK.stack_pointer < 256) ∧
    ((CPU.brk TickBus.ops cpuBeforeBRK).bus.mem (0x100 + cpuBeforeBRK.stack_pointer) =
      (((cpuBeforeBRK.program_counter + 1) % 65536) >>> 8) % 256 ∧
    (CPU.brk TickBus.ops cpuBeforeBRK).bus.mem
        (0x100 + (cpuBeforeBRK.stack_pointer + 255) % 256) =
      ((cpuBeforeBRK.program_counter + 1) % 65536) &&& 0xff ∧
    (CPU.brk TickBus.ops cpuBeforeBRK).bus.mem
        (0x100 + (cpuBeforeBRK.stack_pointer + 254) % 256) =
      (cpuBeforeBRK.status ||| 16) ∧
    (CPU.brk TickBus.ops cpuBeforeBRK).status = cpuBeforeBRK.status ||| 16 ∧
    (CPU.brk TickBus.ops cpuBeforeBRK).stack_pointer =
      (cpuBeforeBRK.stack_pointer + 253) % 256 ∧
    (CPU.brk TickBus.ops cpuBeforeBRK).program_counter =
      (((cpuBeforeBRK.bus.mem 0xffff % 256) <<< 8) ||| (cpuBeforeBRK.bus.mem 0xfffe % 256)) ∧
    (CPU.brk TickBus.ops cpuBeforeBRK).status &&& 4 = cpuBeforeBRK.status &&& 4) :=
  ⟨by decide, c2_brk cpuBeforeBRK (by decide)⟩

/-! Claim C3: bus cycle orchestration. -/

/-- Claim C3 as stated is false: the PPU advance is computed as a u8 product,
so a single tick of 86 CPU cycles advances the PPU dot counter by 258 mod 256
equal to 2 dots, not by 3 times 86 equal to 258 dots. -/
theorem c3_counterexample :
    unitBus.ppu.cycles = 0 ∧
    (Bus.tick unitApuOps unitSample unitCb unitBus 86).ppu.cycles = 2 ∧
    (2 : Nat) ≠ 0 + 3 * 86 := by
  refine ⟨rfl, rfl, by norm_num⟩

/-- Claim C3, amended: a call to bus tick with n cycles adds n to the bus
cycle count, then advances the APU once, handing it the updated count and n
elapsed CPU cycles, then advances the PPU by 3n mod 256 dot cycles (the u8
product; for n at most 85 this is exactly 3n), and finally invokes the frame
callback (which may replace the APU and joypad state) if and only if the PPU
reported a completed frame.  The APU is advanced before the PPU and the
callback observes the post-tick PPU and APU. -/
theorem c3_bus_tick {P T N D F Fl S : Type} (ops : ApuOps P T N D F)
    (sample : APU P T N D F Fl S → S × APU P T N D F Fl S)
    (cb : NesPPU → APU P T N D F Fl S → Joypad → APU P T N D F Fl S × Joypad)
    (b : Bus P T N D F Fl S) (n : Nat) (hn : n < 256) :
    Bus.tick ops sample cb b n =
      (let apu1 := APU.tick ops sample (b.cycles + n) n b.apu
       let pr := b.ppu.tick ((n * 3) % 256)
       if pr.1 then
         { b with cycles := b.cycles + n, apu := (cb pr.2 apu1 b.joypad1).1,
                  ppu := pr.2, joypad1 := (cb pr.2 apu1 b.joypad1).2 }
       else { b with cycles := b.cycles + n, apu := apu1, ppu := pr.2 }) := by
  simp only [Bus.tick]

/-- Witness for C3 on the trivial instantiation with a 7-cycle tick. -/
theorem c3_bus_tick_witness :
    (7 < 256) ∧
    Bus.tick unitApuOps unitSample unitCb unitBus 7 =
      (let apu1 := APU.tick unitApuOps unitSample (unitBus.cycles + 7) 7 unitBus.apu
       let pr := unitBus.ppu.tick ((7 * 3) % 256)
       if pr.1 then
         { unitBus with cycles := unitBus.cycles + 7, apu := (unitCb pr.2 apu1 unitBus.joypad1).1,
                        ppu := pr.2, joypad1 := (unitCb pr.2 apu1 unitBus.joypad1).2 }
       else { unitBus with cycles := unitBus.cycles + 7, apu := apu1, ppu := pr.2 }) :=
  ⟨by norm_num, c3_bus_tick unitApuOps unitSample unitCb unitBus 7 (by norm_num)⟩

/-- Witness for C4: a tick that crosses the scanline boundary into VBlank. -/
theorem c4_ppu_tick_witness :
    (1 < 256) ∧
    ((let s := { NesPPU.new_empty_rom with cycles := 340, scanline := 240, ctrl := 128 }
      (341 ≤ s.cycles + 1 →
        (NesPPU.tick s 1).2.cycles = s.cycles + 1 - 341 ∧
        ((s.scanline + 1) % 65536 = 241 →
          (NesPPU.tick s 1).2.scanline = 241 ∧
          (NesPPU.tick s 1).2.status &&& 128 = 128 ∧
          (s.get_flag ControlFlags.GenerateNMI = true →
            (NesPPU.tick s 1).2.nmi_interrupt = some 1) ∧
          (s.get_flag ControlFlags.GenerateNMI = false →
            (NesPPU.tick s 1).2.nmi_interrupt = s.nmi_interrupt) ∧
          (NesPPU.tick s 1).1 = false) ∧
        (262 ≤ (s.scanline + 1) % 65536 →
          (NesPPU.tick s 1).2.scanline = 0 ∧
          (NesPPU.tick s 1).2.status &&& 128 = 0 ∧
          (NesPPU.tick s 1).2.status &&& 64 = 0 ∧
          (NesPPU.tick s 1).2.nmi_interrupt = none ∧
          (NesPPU.tick s 1).1 = true) ∧
        ((s.scanline + 1) % 65536 ≠ 241 → (s.scanline + 1) % 65536 < 262 →
          (NesPPU.tick s 1).2.scanline = (s.scanline + 1) % 65536 ∧
          (NesPPU.tick s 1).2.status = s.status ∧
          (NesPPU.tick s 1).2.nmi_interrupt = s.nmi_interrupt ∧
          (NesPPU.tick s 1).1 = false)))) :=
  ⟨by norm_num,
   (c4_ppu_tick { NesPPU.new_empty_rom with cycles := 340, scanline := 240, ctrl := 128 } 1
     (by norm_num)).2⟩

/-! Claim C8: infrastructure. Bit 5 of the status register survives every
status update the CPU performs. -/

theorem or_bit5 (x f : Nat) (hf : Nat.testBit f 5 = false) (hx : x &&& 32 = 32) :
    (x ||| f) &&& 32 = 32 := by
  rw [show (32 : Nat) = 2 ^ 5 by norm_num] at hx ⊢
  rw [and_two_pow_eq_iff] at hx ⊢
  rw [Nat.testBit_or, hx, hf]
  rfl

theorem and_bit5 (x f : Nat) (hf : Nat.testBit f 5 = true) (hx : x &&& 32 = 32) :
    (x &&& f) &&& 32 = 32 := by
  rw [show (32 : Nat) = 2 ^ 5 by norm_num] at hx ⊢
  rw [and_two_pow_eq_iff] at hx ⊢
  rw [Nat.testBit_and, hx, hf]
  rfl

theorem or32_bit5 (x : Nat) : (x ||| 32) &&& 32 = 32 := by
  rw [show (32 : Nat) = 2 ^ 5 by norm_num]
  rw [and_two_pow_eq_iff, Nat.testBit_or]
  simp [Nat.testBit_two_pow]
  exact Or.inr (by decide)

namespace CPU

variable {B : Type} (ops : BusOps B)

theorem set_flag_bit5 (s : CPU B) (f : Nat) (v : Bool) (hf : Nat.testBit f 5 = false)
    (hx : StatusBit5 s) : StatusBit5 (set_flag s f v) := by
  cases v
  · rw [set_flag_false]
    exact and_bit5 _ _ (by rw [Nat.testBit_xor, hf, show Nat.testBit 255 5 = true from by decide]; rfl) hx
  · rw [set_flag_true]
    exact or_bit5 _ _ hf hx

theorem set_break2_bit5 (s : CPU B) : StatusBit5 (set_flag s StatusFlag.Break2 true) := by
  rw [set_flag_true]
  exact or32_bit5 _

theorem update_zn_bit5 (s : CPU B) (r : Nat) (hx : StatusBit5 s) :
    StatusBit5 (update_zero_and_negative_flags s r) :=
  set_flag_bit5 _ _ _ (by decide) (set_flag_bit5 _ _ _ (by decide) hx)

theorem add_to_a_bit5 (s : CPU B) (d : Nat) (hx : StatusBit5 s) :
    StatusBit5 (add_to_register_a s d) :=
  update_zn_bit5 _ _ (set_flag_bit5 _ _ _ (by decide) (set_flag_bit5 _ _ _ (by decide) hx))

theorem branch_status (s : CPU B) (c : Bool) : (branch ops s c).status = s.status := by
  cases c <;> rfl

theorem branch_bit5 (s : CPU B) (c : Bool) (hx : StatusBit5 s) :
    StatusBit5 (branch ops s c) := by
  unfold StatusBit5
  rw [branch_status]
  exact hx

theorem goa_status (s : CPU B) (mode : AddressingMode) (p : Nat × CPU B)
    (h : get_operand_address ops s mode = some p) : p.2.status = s.status := by
  cases mode
  case NoneAddressing =>
    simp only [get_operand_address] at h
    exact Option.noConfusion h
  all_goals
    simp only [get_operand_address, Option.some.injEq] at h
    rw [← h]
  all_goals rfl

set_option maxRecDepth 4000 in
theorem interrupt_status (s : CPU B) (i : Interrupt) :
    (interrupt ops s i).status = s.status ||| StatusFlag.InterruptDisable := by
  dsimp only [interrupt, stack_push_u16, stack_push, mem_write, mem_read_u16, mem_read,
    set_flag_true]

theorem interrupt_bit5 (s : CPU B) (i : Interrupt) (hx : StatusBit5 s) :
    StatusBit5 (interrupt ops s i) := by
  unfold StatusBit5
  rw [interrupt_status]
  exact or_bit5 _ _ (by decide) hx

set_option maxRecDepth 4000 in
theorem brk_status (s : CPU B) :
    (brk ops s).status = s.status ||| StatusFlag.Break := by
  dsimp only [brk, stack_push_u16, stack_push, mem_write, mem_read_u16, mem_read,
    set_flag_true]

theorem brk_bit5 (s : CPU B) (hx : StatusBit5 s) : StatusBit5 (brk ops s) := by
  unfold StatusBit5
  rw [brk_status]
  exact or_bit5 _ _ (by decide) hx

end CPU


/-! Per-instruction preservation of status bit 5. -/

namespace CPU

variable {B : Type} (ops : BusOps B)

theorem bit5_of_eq {B1 B2 : Type} (s1 : CPU B1) (s2 : CPU B2)
    (h : s1.status = s2.status) (hx : StatusBit5 s2) : StatusBit5 s1 := by
  unfold StatusBit5 at hx ⊢
  rw [h]
  exact hx
theorem lda_bit5 (s : CPU B) (mode : AddressingMode) (hx : StatusBit5 s) :
    ∀ s1, lda ops s mode = some s1 → StatusBit5 s1 := by
  intro s1 h
  rcases hg : get_operand_address ops s mode with _ | p
  · rw [lda, hg] at h
    exact Option.noConfusion h
  · rw [lda, hg] at h
    injection h with h2
    rw [← h2]
    first
      | exact bit5_of_eq _ _ (goa_status ops s mode p hg) hx
      | exact update_zn_bit5 _ _ (bit5_of_eq _ _ (goa_status ops s mode p hg) hx)
      | exact update_zn_bit5 _ _ (set_flag_bit5 _ _ _ (by decide)
          (bit5_of_eq _ _ (goa_status ops s mode p hg) hx))
      | exact add_to_a_bit5 _ _ (bit5_of_eq _ _ (goa_status ops s mode p hg) hx)
      | exact set_flag_bit5 _ _ _ (by decide) (set_flag_bit5 _ _ _ (by decide)
          (set_flag_bit5 _ _ _ (by decide) (bit5_of_eq _ _ (goa_status ops s mode p hg) hx)))
theorem sta_bit5 (s : CPU B) (mode : AddressingMode) (hx : StatusBit5 s) :
    ∀ s1, sta ops s mode = some s1 → StatusBit5 s1 := by
  intro s1 h
  rcases hg : get_operand_address ops s mode with _ | p
  · rw [sta, hg] at h
    exact Option.noConfusion h
  · rw [sta, hg] at h
    injection h with h2
    rw [← h2]
    first
      | exact bit5_of_eq _ _ (goa_status ops s mode p hg) hx
      | exact update_zn_bit5 _ _ (bit5_of_eq _ _ (goa_status ops s mode p hg) hx)
      | exact update_zn_bit5 _ _ (set_flag_bit5 _ _ _ (by decide)
          (bit5_of_eq _ _ (goa_status ops s mode p hg) hx))
      | exact add_to_a_bit5 _ _ (bit5_of_eq _ _ (goa_status ops s mode p hg) hx)
      | exact set_flag_bit5 _ _ _ (by decide) (set_flag_bit5 _ _ _ (by decide)
          (set_flag_bit5 _ _ _ (by decide) (bit5_of_eq _ _ (goa_status ops s mode p hg) hx)))
theorem adc_bit5 (s : CPU B) (mode : AddressingMode) (hx : StatusBit5 s) :
    ∀ s1, adc ops s mode = some s1 → StatusBit5 s1 := by
  intro s1 h
  rcases hg : get_operand_address ops s mode with _ | p
  · rw [adc, hg] at h
    exact Option.noConfusion h
  · rw [adc, hg] at h
    injection h with h2
    rw [← h2]
    first
      | exact bit5_of_eq _ _ (goa_status ops s mode p hg) hx
      | exact update_zn_bit5 _ _ (bit5_of_eq _ _ (goa_status ops s mode p hg) hx)
      | exact update_zn_bit5 _ _ (set_flag_bit5 _ _ _ (by decide)
          (bit5_of_eq _ _ (goa_status ops s mode p hg) hx))
      | exact add_to_a_bit5 _ _ (bit5_of_eq _ _ (goa_status ops s mode p hg) hx)
      | exact set_flag_bit5 _ _ _ (by decide) (set_flag_bit5 _ _ _ (by decide)
          (set_flag_bit5 _ _ _ (by decide) (bit5_of_eq _ _ (goa_status ops s mode p hg) hx)))
theorem andInstr_bit5 (s : CPU B) (mode : AddressingMode) (hx : StatusBit5 s) :
    ∀ s1, andInstr ops s mode = some s1 → StatusBit5 s1 := by
  intro s1 h
  rcases hg : get_operand_address ops s mode with _ | p
  · rw [andInstr, hg] at h
    exact Option.noConfusion h
  · rw [andInstr, hg] at h
    injection h with h2
    rw [← h2]
    first
      | exact bit5_of_eq _ _ (goa_status ops s mode p hg) hx
      | exact update_zn_bit5 _ _ (bit5_of_eq _ _ (goa_status ops s mode p hg) hx)
      | exact update_zn_bit5 _ _ (set_flag_bit5 _ _ _ (by decide)
          (bit5_of_eq _ _ (goa_status ops s mode p hg) hx))
      | exact add_to_a_bit5 _ _ (bit5_of_eq _ _ (goa_status ops s mode p hg) hx)
      | exact set_flag_bit5 _ _ _ (by decide) (set_flag_bit5 _ _ _ (by decide)
          (set_flag_bit5 _ _ _ (by decide) (bit5_of_eq _ _ (goa_status ops s mode p hg) hx)))
theorem asl_bit5 (s : CPU B) (mode : AddressingMode) (hx : StatusBit5 s) :
    ∀ s1, asl ops s mode = some s1 → StatusBit5 s1 := by
  intro s1 h
  rcases hg : get_operand_address ops s mode with _ | p
  · rw [asl, hg] at h
    exact Option.noConfusion h
  · rw [asl, hg] at h
    injection h with h2
    rw [← h2]
    first
      | exact bit5_of_eq _ _ (goa_status ops s mode p hg) hx
      | exact update_zn_bit5 _ _ (bit5_of_eq _ _ (goa_status ops s mode p hg) hx)
      | exact update_zn_bit5 _ _ (set_flag_bit5 _ _ _ (by decide)
          (bit5_of_eq _ _ (goa_status ops s mode p hg) hx))
      | exact add_to_a_bit5 _ _ (bit5_of_eq _ _ (goa_status ops s mode p hg) hx)
      | exact set_flag_bit5 _ _ _ (by decide) (set_flag_bit5 _ _ _ (by decide)
          (set_flag_bit5 _ _ _ (by decide) (bit5_of_eq _ _ (goa_status ops s mode p hg) hx)))
theorem bit_test_bit5 (s : CPU B) (mode : AddressingMode) (hx : StatusBit5 s) :
    ∀ s1, bit_test ops s mode = some s1 → StatusBit5 s1 := by
  intro s1 h
  rcases hg : get_operand_address ops s mode with _ | p
  · rw [bit_test, hg] at h
    exact Option.noConfusion h
  · rw [bit_test, hg] at h
    injection h with h2
    rw [← h2]
    first
      | exact bit5_of_eq _ _ (goa_status ops s mode p hg) hx
      | exact update_zn_bit5 _ _ (bit5_of_eq _ _ (goa_status ops s mode p hg) hx)
      | exact update_zn_bit5 _ _ (set_flag_bit5 _ _ _ (by decide)
          (bit5_of_eq _ _ (goa_status ops s mode p hg) hx))
      | exact add_to_a_bit5 _ _ (bit5_of_eq _ _ (goa_status ops s mode p hg) hx)
      | exact set_flag_bit5 _ _ _ (by decide) (set_flag_bit5 _ _ _ (by decide)
          (set_flag_bit5 _ _ _ (by decide) (bit5_of_eq _ _ (goa_status ops s mode p hg) hx)))
theorem cmp_bit5 (s : CPU B) (mode : AddressingMode) (hx : StatusBit5 s) :
    ∀ s1, cmp ops s mode = some s1 → StatusBit5 s1 := by
  intro s1 h
  rcases hg : get_operand_address ops s mode with _ | p
  · rw [cmp, hg] at h
    exact Option.noConfusion h
  · rw [cmp, hg] at h
    injection h with h2
    rw [← h2]
    first
      | exact bit5_of_eq _ _ (goa_status ops s mode p hg) hx
      | exact update_zn_bit5 _ _ (bit5_of_eq _ _ (goa_status ops s mode p hg) hx)
      | exact update_zn_bit5 _ _ (set_flag_bit5 _ _ _ (by decide)
          (bit5_of_eq _ _ (goa_status ops s mode p hg) hx))
      | exact add_to_a_bit5 _ _ (bit5_of_eq _ _ (goa_status ops s mode p hg) hx)
      | exact set_flag_bit5 _ _ _ (by decide) (set_flag_bit5 _ _ _ (by decide)
          (set_flag_bit5 _ _ _ (by decide) (bit5_of_eq _ _ (goa_status ops s mode p hg) hx)))
theorem cpx_bit5 (s : CPU B) (mode : AddressingMode) (hx : StatusBit5 s) :
    ∀ s1, cpx ops s mode = some s1 → StatusBit5 s1 := by
  intro s1 h
  rcases hg : get_operand_address ops s mode with _ | p
  · rw [cpx, hg] at h
    exact Option.noConfusion h
  · rw [cpx, hg] at h
    injection h with h2
    rw [← h2]
    first
      | exact bit5_of_eq _ _ (goa_status ops s mode p hg) hx
      | exact update_zn_bit5 _ _ (bit5_of_eq _ _ (goa_status ops s mode p hg) hx)
      | exact update_zn_bit5 _ _ (set_flag_bit5 _ _ _ (by decide)
          (bit5_of_eq _ _ (goa_status ops s mode p hg) hx))
      | exact add_to_a_bit5 _ _ (bit5_of_eq _ _ (goa_status ops s mode p hg) hx)
      | exact set_flag_bit5 _ _ _ (by decide) (set_flag_bit5 _ _ _ (by decide)
          (set_flag_bit5 _ _ _ (by decide) (bit5_of_eq _ _ (goa_status ops s mode p hg) hx)))
theorem cpy_bit5 (s : CPU B) (mode : AddressingMode) (hx : StatusBit5 s) :
    ∀ s1, cpy ops s mode = some s1 → StatusBit5 s1 := by
  intro s1 h
  rcases hg : get_operand_address ops s mode with _ | p
  · rw [cpy, hg] at h
    exact Option.noConfusion h
  · rw [cpy, hg] at h
    injection h with h2
    rw [← h2]
    first
      | exact bit5_of_eq _ _ (goa_status ops s mode p hg) hx
      | exact update_zn_bit5 _ _ (bit5_of_eq _ _ (goa_status ops s mode p hg) hx)
      | exact update_zn_bit5 _ _ (set_flag_bit5 _ _ _ (by decide)
          (bit5_of_eq _ _ (goa_status ops s mode p hg) hx))
      | exact add_to_a_bit5 _ _ (bit5_of_eq _ _ (goa_status ops s mode p hg) hx)
      | exact set_flag_bit5 _ _ _ (by decide) (set_flag_bit5 _ _ _ (by decide)
          (set_flag_bit5 _ _ _ (by decide) (bit5_of_eq _ _ (goa_status ops s mode p hg) hx)))
theorem dec_bit5 (s : CPU B) (mode : AddressingMode) (hx : StatusBit5 s) :
    ∀ s1, dec ops s mode = some s1 → StatusBit5 s1 := by
  intro s1 h
  rcases hg : get_operand_address ops s mode with _ | p
  · rw [dec, hg] at h
    exact Option.noConfusion h
  · rw [dec, hg] at h
    injection h with h2
    rw [← h2]
    first
      | exact bit5_of_eq _ _ (goa_status ops s mode p hg) hx
      | exact update_zn_bit5 _ _ (bit5_of_eq _ _ (goa_status ops s mode p hg) hx)
      | exact update_zn_bit5 _ _ (set_flag_bit5 _ _ _ (by decide)
          (bit5_of_eq _ _ (goa_status ops s mode p hg) hx))
      | exact add_to_a_bit5 _ _ (bit5_of_eq _ _ (goa_status ops s mode p hg) hx)
      | exact set_flag_bit5 _ _ _ (by decide) (set_flag_bit5 _ _ _ (by decide)
          (set_flag_bit5 _ _ _ (by decide) (bit5_of_eq _ _ (goa_status ops s mode p hg) hx)))
theorem eor_bit5 (s : CPU B) (mode : AddressingMode) (hx : StatusBit5 s) :
    ∀ s1, eor ops s mode = some s1 → StatusBit5 s1 := by
  intro s1 h
  rcases hg : get_operand_address ops s mode with _ | p
  · rw [eor, hg] at h
    exact Option.noConfusion h
  · rw [eor, hg] at h
    injection h with h2
    rw [← h2]
    first
      | exact bit5_of_eq _ _ (goa_status ops s mode p hg) hx
      | exact update_zn_bit5 _ _ (bit5_of_eq _ _ (goa_status ops s mode p hg) hx)
      | exact update_zn_bit5 _ _ (set_flag_bit5 _ _ _ (by decide)
          (bit5_of_eq _ _ (goa_status ops s mode p hg) hx))
      | exact add_to_a_bit5 _ _ (bit5_of_eq _ _ (goa_status ops s mode p hg) hx)
      | exact set_flag_bit5 _ _ _ (by decide) (set_flag_bit5 _ _ _ (by decide)
          (set_flag_bit5 _ _ _ (by decide) (bit5_of_eq _ _ (goa_status ops s mode p hg) hx)))
theorem inc_bit5 (s : CPU B) (mode : AddressingMode) (hx : StatusBit5 s) :
    ∀ s1, inc ops s mode = some s1 → StatusBit5 s1 := by
  intro s1 h
  rcases hg : get_operand_address ops s mode with _ | p
  · rw [inc, hg] at h
    exact Option.noConfusion h
  · rw [inc, hg] at h
    injection h with h2
    rw [← h2]
    first
      | exact bit5_of_eq _ _ (goa_status ops s mode p hg) hx
      | exact update_zn_bit5 _ _ (bit5_of_eq _ _ (goa_status ops s mode p hg) hx)
      | exact update_zn_bit5 _ _ (set_flag_bit5 _ _ _ (by decide)
          (bit5_of_eq _ _ (goa_status ops s mode p hg) hx))
      | exact add_to_a_bit5 _ _ (bit5_of_eq _ _ (goa_status ops s mode p hg) hx)
      | exact set_flag_bit5 _ _ _ (by decide) (set_flag_bit5 _ _ _ (by decide)
          (set_flag_bit5 _ _ _ (by decide) (bit5_of_eq _ _ (goa_status ops s mode p hg) hx)))
theorem ldx_bit5 (s : CPU B) (mode : AddressingMode) (hx : StatusBit5 s) :
    ∀ s1, ldx ops s mode = some s1 → StatusBit5 s1 := by
  intro s1 h
  rcases hg : get_operand_address ops s mode with _ | p
  · rw [ldx, hg] at h
    exact Option.noConfusion h
  · rw [ldx, hg] at h
    injection h with h2
    rw [← h2]
    first
      | exact bit5_of_eq _ _ (goa_status ops s mode p hg) hx
      | exact update_zn_bit5 _ _ (bit5_of_eq _ _ (goa_status ops s mode p hg) hx)
      | exact update_zn_bit5 _ _ (set_flag_bit5 _ _ _ (by decide)
          (bit5_of_eq _ _ (goa_status ops s mode p hg) hx))
      | exact add_to_a_bit5 _ _ (bit5_of_eq _ _ (goa_status ops s mode p hg) hx)
      | exact set_flag_bit5 _ _ _ (by decide) (set_flag_bit5 _ _ _ (by decide)
          (set_flag_bit5 _ _ _ (by decide) (bit5_of_eq _ _ (goa_status ops s mode p hg) hx)))
theorem ldy_bit5 (s : CPU B) (mode : AddressingMode) (hx : StatusBit5 s) :
    ∀ s1, ldy ops s mode = some s1 → StatusBit5 s1 := by
  intro s1 h
  rcases hg : get_operand_address ops s mode with _ | p
  · rw [ldy, hg] at h
    exact Option.noConfusion h
  · rw [ldy, hg] at h
    injection h with h2
    rw [← h2]
    first
      | exact bit5_of_eq _ _ (goa_status ops s mode p hg) hx
      | exact update_zn_bit5 _ _ (bit5_of_eq _ _ (goa_status ops s mode p hg) hx)
      | exact update_zn_bit5 _ _ (set_flag_bit5 _ _ _ (by decide)
          (bit5_of_eq _ _ (goa_status ops s mode p hg) hx))
      | exact add_to_a_bit5 _ _ (bit5_of_eq _ _ (goa_status ops s mode p hg) hx)
      | exact set_flag_bit5 _ _ _ (by decide) (set_flag_bit5 _ _ _ (by decide)
          (set_flag_bit5 _ _ _ (by decide) (bit5_of_eq _ _ (goa_status ops s mode p hg) hx)))
theorem lsr_bit5 (s : CPU B) (mode : AddressingMode) (hx : StatusBit5 s) :
    ∀ s1, lsr ops s mode = some s1 → StatusBit5 s1 := by
  intro s1 h
  rcases hg : get_operand_address ops s mode with _ | p
  · rw [lsr, hg] at h
    exact Option.noConfusion h
  · rw [lsr, hg] at h
    injection h with h2
    rw [← h2]
    first
      | exact bit5_of_eq _ _ (goa_status ops s mode p hg) hx
      | exact update_zn_bit5 _ _ (bit5_of_eq _ _ (goa_status ops s mode p hg) hx)
      | exact update_zn_bit5 _ _ (set_flag_bit5 _ _ _ (by decide)
          (bit5_of_eq _ _ (goa_status ops s mode p hg) hx))
      | exact add_to_a_bit5 _ _ (bit5_of_eq _ _ (goa_status ops s mode p hg) hx)
      | exact set_flag_bit5 _ _ _ (by decide) (set_flag_bit5 _ _ _ (by decide)
          (set_flag_bit5 _ _ _ (by decide) (bit5_of_eq _ _ (goa_status ops s mode p hg) hx)))
theorem ora_bit5 (s : CPU B) (mode : AddressingMode) (hx : StatusBit5 s) :
    ∀ s1, ora ops s mode = some s1 → StatusBit5 s1 := by
  intro s1 h
  rcases hg : get_operand_address ops s mode with _ | p
  · rw [ora, hg] at h
    exact Option.noConfusion h
  · rw [ora, hg] at h
    injection h with h2
    rw [← h2]
    first
      | exact bit5_of_eq _ _ (goa_status ops s mode p hg) hx
      | exact update_zn_bit5 _ _ (bit5_of_eq _ _ (goa_status ops s mode p hg) hx)
      | exact update_zn_bit5 _ _ (set_flag_bit5 _ _ _ (by decide)
          (bit5_of_eq _ _ (goa_status ops s mode p hg) hx))
      | exact add_to_a_bit5 _ _ (bit5_of_eq _ _ (goa_status ops s mode p hg) hx)
      | exact set_flag_bit5 _ _ _ (by decide) (set_flag_bit5 _ _ _ (by decide)
          (set_flag_bit5 _ _ _ (by decide) (bit5_of_eq _ _ (goa_status ops s mode p hg) hx)))
theorem rol_bit5 (s : CPU B) (mode : AddressingMode) (hx : StatusBit5 s) :
    ∀ s1, rol ops s mode = some s1 → StatusBit5 s1 := by
  intro s1 h
  rcases hg : get_operand_address ops s mode with _ | p
  · rw [rol, hg] at h
    exact Option.noConfusion h
  · rw [rol, hg] at h
    injection h with h2
    rw [← h2]
    first
      | exact bit5_of_eq _ _ (goa_status ops s mode p hg) hx
      | exact update_zn_bit5 _ _ (bit5_of_eq _ _ (goa_status ops s mode p hg) hx)
      | exact update_zn_bit5 _ _ (set_flag_bit5 _ _ _ (by decide)
          (bit5_of_eq _ _ (goa_status ops s mode p hg) hx))
      | exact add_to_a_bit5 _ _ (bit5_of_eq _ _ (goa_status ops s mode p hg) hx)
      | exact set_flag_bit5 _ _ _ (by decide) (set_flag_bit5 _ _ _ (by decide)
          (set_flag_bit5 _ _ _ (by decide) (bit5_of_eq _ _ (goa_status ops s mode p hg) hx)))
theorem ror_bit5 (s : CPU B) (mode : AddressingMode) (hx : StatusBit5 s) :
    ∀ s1, ror ops s mode = some s1 → StatusBit5 s1 := by
  intro s1 h
  rcases hg : get_operand_address ops s mode with _ | p
  · rw [ror, hg] at h
    exact Option.noConfusion h
  · rw [ror, hg] at h
    injection h with h2
    rw [← h2]
    first
      | exact bit5_of_eq _ _ (goa_status ops s mode p hg) hx
      | exact update_zn_bit5 _ _ (bit5_of_eq _ _ (goa_status ops s mode p hg) hx)
      | exact update_zn_bit5 _ _ (set_flag_bit5 _ _ _ (by decide)
          (bit5_of_eq _ _ (goa_status ops s mode p hg) hx))
      | exact add_to_a_bit5 _ _ (bit5_of_eq _ _ (goa_status ops s mode p hg) hx)
      | exact set_flag_bit5 _ _ _ (by decide) (set_flag_bit5 _ _ _ (by decide)
          (set_flag_bit5 _ _ _ (by decide) (bit5_of_eq _ _ (goa_status ops s mode p hg) hx)))
theorem sbc_bit5 (s : CPU B) (mode : AddressingMode) (hx : StatusBit5 s) :
    ∀ s1, sbc ops s mode = some s1 → StatusBit5 s1 := by
  intro s1 h
  rcases hg : get_operand_address ops s mode with _ | p
  · rw [sbc, hg] at h
    exact Option.noConfusion h
  · rw [sbc, hg] at h
    injection h with h2
    rw [← h2]
    first
      | exact bit5_of_eq _ _ (goa_status ops s mode p hg) hx
      | exact update_zn_bit5 _ _ (bit5_of_eq _ _ (goa_status ops s mode p hg) hx)
      | exact update_zn_bit5 _ _ (set_flag_bit5 _ _ _ (by decide)
          (bit5_of_eq _ _ (goa_status ops s mode p hg) hx))
      | exact add_to_a_bit5 _ _ (bit5_of_eq _ _ (goa_status ops s mode p hg) hx)
      | exact set_flag_bit5 _ _ _ (by decide) (set_flag_bit5 _ _ _ (by decide)
          (set_flag_bit5 _ _ _ (by decide) (bit5_of_eq _ _ (goa_status ops s mode p hg) hx)))
theorem stx_bit5 (s : CPU B) (mode : AddressingMode) (hx : StatusBit5 s) :
    ∀ s1, stx ops s mode = some s1 → StatusBit5 s1 := by
  intro s1 h
  rcases hg : get_operand_address ops s mode with _ | p
  · rw [stx, hg] at h
    exact Option.noConfusion h
  · rw [stx, hg] at h
    injection h with h2
    rw [← h2]
    first
      | exact bit5_of_eq _ _ (goa_status ops s mode p hg) hx
      | exact update_zn_bit5 _ _ (bit5_of_eq _ _ (goa_status ops s mode p hg) hx)
      | exact update_zn_bit5 _ _ (set_flag_bit5 _ _ _ (by decide)
          (bit5_of_eq _ _ (goa_status ops s mode p hg) hx))
      | exact add_to_a_bit5 _ _ (bit5_of_eq _ _ (goa_status ops s mode p hg) hx)
      | exact set_flag_bit5 _ _ _ (by decide) (set_flag_bit5 _ _ _ (by decide)
          (set_flag_bit5 _ _ _ (by decide) (bit5_of_eq _ _ (goa_status ops s mode p hg) hx)))
theorem sty_bit5 (s : CPU B) (mode : AddressingMode) (hx : StatusBit5 s) :
    ∀ s1, sty ops s mode = some s1 → StatusBit5 s1 := by
  intro s1 h
  rcases hg : get_operand_address ops s mode with _ | p
  · rw [sty, hg] at h
    exact Option.noConfusion h
  · rw [sty, hg] at h
    injection h with h2
    rw [← h2]
    first
      | exact bit5_of_eq _ _ (goa_status ops s mode p hg) hx
      | exact update_zn_bit5 _ _ (bit5_of_eq _ _ (goa_status ops s mode p hg) hx)
      | exact update_zn_bit5 _ _ (set_flag_bit5 _ _ _ (by decide)
          (bit5_of_eq _ _ (goa_status ops s mode p hg) hx))
      | exact add_to_a_bit5 _ _ (bit5_of_eq _ _ (goa_status ops s mode p hg) hx)
      | exact set_flag_bit5 _ _ _ (by decide) (set_flag_bit5 _ _ _ (by decide)
          (set_flag_bit5 _ _ _ (by decide) (bit5_of_eq _ _ (goa_status ops s mode p hg) hx)))
theorem lax_bit5 (s : CPU B) (mode : AddressingMode) (hx : StatusBit5 s) :
    ∀ s1, lax ops s mode = some s1 → StatusBit5 s1 := by
  intro s1 h
  rcases hg : get_operand_address ops s mode with _ | p
  · rw [lax, hg] at h
    exact Option.noConfusion h
  · rw [lax, hg] at h
    injection h with h2
    rw [← h2]
    first
      | exact bit5_of_eq _ _ (goa_status ops s mode p hg) hx
      | exact update_zn_bit5 _ _ (bit5_of_eq _ _ (goa_status ops s mode p hg) hx)
      | exact update_zn_bit5 _ _ (set_flag_bit5 _ _ _ (by decide)
          (bit5_of_eq _ _ (goa_status ops s mode p hg) hx))
      | exact add_to_a_bit5 _ _ (bit5_of_eq _ _ (goa_status ops s mode p hg) hx)
      | exact set_flag_bit5 _ _ _ (by decide) (set_flag_bit5 _ _ _ (by decide)
          (set_flag_bit5 _ _ _ (by decide) (bit5_of_eq _ _ (goa_status ops s mode p hg) hx)))
theorem sax_bit5 (s : CPU B) (mode : AddressingMode) (hx : StatusBit5 s) :
    ∀ s1, sax ops s mode = some s1 → StatusBit5 s1 := by
  intro s1 h
  rcases hg : get_operand_address ops s mode with _ | p
  · rw [sax, hg] at h
    exact Option.noConfusion h
  · rw [sax, hg] at h
    injection h with h2
    rw [← h2]
    first
      | exact bit5_of_eq _ _ (goa_status ops s mode p hg) hx
      | exact update_zn_bit5 _ _ (bit5_of_eq _ _ (goa_status ops s mode p hg) hx)
      | exact update_zn_bit5 _ _ (set_flag_bit5 _ _ _ (by decide)
          (bit5_of_eq _ _ (goa_status ops s mode p hg) hx))
      | exact add_to_a_bit5 _ _ (bit5_of_eq _ _ (goa_status ops s mode p hg) hx)
      | exact set_flag_bit5 _ _ _ (by decide) (set_flag_bit5 _ _ _ (by decide)
          (set_flag_bit5 _ _ _ (by decide) (bit5_of_eq _ _ (goa_status ops s mode p hg) hx)))
theorem dcp_bit5 (s : CPU B) (mode : AddressingMode) (hx : StatusBit5 s) :
    ∀ s1, dcp ops s mode = some s1 → StatusBit5 s1 := by
  intro s1 h
  rcases hg : get_operand_address ops s mode with _ | p
  · rw [dcp, hg] at h
    exact Option.noConfusion h
  · rw [dcp, hg] at h
    injection h with h2
    rw [← h2]
    first
      | exact bit5_of_eq _ _ (goa_status ops s mode p hg) hx
      | exact update_zn_bit5 _ _ (bit5_of_eq _ _ (goa_status ops s mode p hg) hx)
      | exact update_zn_bit5 _ _ (set_flag_bit5 _ _ _ (by decide)
          (bit5_of_eq _ _ (goa_status ops s mode p hg) hx))
      | exact add_to_a_bit5 _ _ (bit5_of_eq _ _ (goa_status ops s mode p hg) hx)
      | exact set_flag_bit5 _ _ _ (by decide) (set_flag_bit5 _ _ _ (by decide)
          (set_flag_bit5 _ _ _ (by decide) (bit5_of_eq _ _ (goa_status ops s mode p hg) hx)))
theorem isb_bit5 (s : CPU B) (mode : AddressingMode) (hx : StatusBit5 s) :
    ∀ s1, isb ops s mode = some s1 → StatusBit5 s1 := by
  intro s1 h
  rcases hg : get_operand_address ops s mode with _ | p
  · rw [isb, hg] at h
    exact Option.noConfusion h
  · rw [isb, hg] at h
    injection h with h2
    rw [← h2]
    first
      | exact bit5_of_eq _ _ (goa_status ops s mode p hg) hx
      | exact update_zn_bit5 _ _ (bit5_of_eq _ _ (goa_status ops s mode p hg) hx)
      | exact update_zn_bit5 _ _ (set_flag_bit5 _ _ _ (by decide)
          (bit5_of_eq _ _ (goa_status ops s mode p hg) hx))
      | exact add_to_a_bit5 _ _ (bit5_of_eq _ _ (goa_status ops s mode p hg) hx)
      | exact set_flag_bit5 _ _ _ (by decide) (set_flag_bit5 _ _ _ (by decide)
          (set_flag_bit5 _ _ _ (by decide) (bit5_of_eq _ _ (goa_status ops s mode p hg) hx)))
theorem slo_bit5 (s : CPU B) (mode : AddressingMode) (hx : StatusBit5 s) :
    ∀ s1, slo ops s mode = some s1 → StatusBit5 s1 := by
  intro s1 h
  rcases hg : get_operand_address ops s mode with _ | p
  · rw [slo, hg] at h
    exact Option.noConfusion h
  · rw [slo, hg] at h
    injection h with h2
    rw [← h2]
    first
      | exact bit5_of_eq _ _ (goa_status ops s mode p hg) hx
      | exact update_zn_bit5 _ _ (bit5_of_eq _ _ (goa_status ops s mode p hg) hx)
      | exact update_zn_bit5 _ _ (set_flag_bit5 _ _ _ (by decide)
          (bit5_of_eq _ _ (goa_status ops s mode p hg) hx))
      | exact add_to_a_bit5 _ _ (bit5_of_eq _ _ (goa_status ops s mode p hg) hx)
      | exact set_flag_bit5 _ _ _ (by decide) (set_flag_bit5 _ _ _ (by decide)
          (set_flag_bit5 _ _ _ (by decide) (bit5_of_eq _ _ (goa_status ops s mode p hg) hx)))
theorem sre_bit5 (s : CPU B) (mode : AddressingMode) (hx : StatusBit5 s) :
    ∀ s1, sre ops s mode = some s1 → StatusBit5 s1 := by
  intro s1 h
  rcases hg : get_operand_address ops s mode with _ | p
  · rw [sre, hg] at h
    exact Option.noConfusion h
  · rw [sre, hg] at h
    injection h with h2
    rw [← h2]
    first
      | exact bit5_of_eq _ _ (goa_status ops s mode p hg) hx
      | exact update_zn_bit5 _ _ (bit5_of_eq _ _ (goa_status ops s mode p hg) hx)
      | exact update_zn_bit5 _ _ (set_flag_bit5 _ _ _ (by decide)
          (bit5_of_eq _ _ (goa_status ops s mode p hg) hx))
      | exact add_to_a_bit5 _ _ (bit5_of_eq _ _ (goa_status ops s mode p hg) hx)
      | exact set_flag_bit5 _ _ _ (by decide) (set_flag_bit5 _ _ _ (by decide)
          (set_flag_bit5 _ _ _ (by decide) (bit5_of_eq _ _ (goa_status ops s mode p hg) hx)))
theorem dex_bit5 (s : CPU B) (hx : StatusBit5 s) : StatusBit5 (dex s) :=
  update_zn_bit5 _ _ hx
theorem dey_bit5 (s : CPU B) (hx : StatusBit5 s) : StatusBit5 (dey s) :=
  update_zn_bit5 _ _ hx
theorem inx_bit5 (s : CPU B) (hx : StatusBit5 s) : StatusBit5 (inx s) :=
  update_zn_bit5 _ _ hx
theorem iny_bit5 (s : CPU B) (hx : StatusBit5 s) : StatusBit5 (iny s) :=
  update_zn_bit5 _ _ hx
theorem tax_bit5 (s : CPU B) (hx : StatusBit5 s) : StatusBit5 (tax s) :=
  update_zn_bit5 _ _ hx
theorem tay_bit5 (s : CPU B) (hx : StatusBit5 s) : StatusBit5 (tay s) :=
  update_zn_bit5 _ _ hx
theorem tsx_bit5 (s : CPU B) (hx : StatusBit5 s) : StatusBit5 (tsx s) :=
  update_zn_bit5 _ _ hx
theorem txa_bit5 (s : CPU B) (hx : StatusBit5 s) : StatusBit5 (txa s) :=
  update_zn_bit5 _ _ hx
theorem tya_bit5 (s : CPU B) (hx : StatusBit5 s) : StatusBit5 (tya s) :=
  update_zn_bit5 _ _ hx
theorem asl_accumulator_bit5 (s : CPU B) (hx : StatusBit5 s) : StatusBit5 (asl_accumulator s) :=
  update_zn_bit5 _ _ (set_flag_bit5 _ _ _ (by decide) hx)
theorem lsr_accumulator_bit5 (s : CPU B) (hx : StatusBit5 s) : StatusBit5 (lsr_accumulator s) :=
  update_zn_bit5 _ _ (set_flag_bit5 _ _ _ (by decide) hx)
theorem rol_accumulator_bit5 (s : CPU B) (hx : StatusBit5 s) : StatusBit5 (rol_accumulator s) :=
  update_zn_bit5 _ _ (set_flag_bit5 _ _ _ (by decide) hx)
theorem ror_accumulator_bit5 (s : CPU B) (hx : StatusBit5 s) : StatusBit5 (ror_accumulator s) :=
  update_zn_bit5 _ _ (set_flag_bit5 _ _ _ (by decide) hx)
theorem txs_bit5 (s : CPU B) (hx : StatusBit5 s) : StatusBit5 (txs s) := hx

theorem rla_bit5 (s : CPU B) (mode : AddressingMode) (hx : StatusBit5 s) :
    ∀ s1, rla ops s mode = some s1 → StatusBit5 s1 := by
  intro s1 h
  rw [rla] at h
  rcases hr : rol ops s mode with _ | s2
  · rw [hr] at h
    exact Option.noConfusion h
  · rw [hr] at h
    replace h : ((get_operand_address ops s2 mode).map fun p =>
        let r := mem_read ops p.2 p.1
        { r.2 with register_a := r.2.register_a &&& r.1 }) = some s1 := h
    have hx2 : StatusBit5 s2 := rol_bit5 ops s mode hx s2 hr
    rcases hg : get_operand_address ops s2 mode with _ | p
    · rw [hg] at h
      exact Option.noConfusion h
    · rw [hg] at h
      injection h with h2
      rw [← h2]
      exact bit5_of_eq _ _ (goa_status ops s2 mode p hg) hx2

theorem rra_bit5 (s : CPU B) (mode : AddressingMode) (hx : StatusBit5 s) :
    ∀ s1, rra ops s mode = some s1 → StatusBit5 s1 := by
  intro s1 h
  rw [rra] at h
  rcases hr : ror ops s mode with _ | s2
  · rw [hr] at h
    exact Option.noConfusion h
  · rw [hr] at h
    replace h : ((get_operand_address ops s2 mode).map fun p =>
        let r := mem_read ops p.2 p.1
        add_to_register_a r.2 r.1) = some s1 := h
    have hx2 : StatusBit5 s2 := ror_bit5 ops s mode hx s2 hr
    rcases hg : get_operand_address ops s2 mode with _ | p
    · rw [hg] at h
      exact Option.noConfusion h
    · rw [hg] at h
      injection h with h2
      rw [← h2]
      exact add_to_a_bit5 _ _ (bit5_of_eq _ _ (goa_status ops s2 mode p hg) hx2)

end CPU

/-! Bit 5 of the status register is preserved across the whole opcode
dispatch, one loop step, and every reachable state. -/

/-- Every state an optional CPU result can produce has status bit 5 set. -/
def StatusBit5Opt {B : Type} (o : Option (CPU B)) : Prop :=
  ∀ s1, o = some s1 → StatusBit5 s1

theorem statusBit5Opt_ite {B : Type} (c : Prop) [inst : Decidable c]
    (a b : Option (CPU B)) (ha : StatusBit5Opt a) (hb : StatusBit5Opt b) :
    StatusBit5Opt (if c then a else b) := by
  unfold StatusBit5Opt
  split
  · exact ha
  · exact hb

namespace CPU

variable {B : Type} (ops : BusOps B)

set_option maxHeartbeats 2000000 in
set_option maxRecDepth 16000 in
theorem execCode_bit5 (s : CPU B) (code : Nat) (mode : AddressingMode)
    (hx : StatusBit5 s) : ∀ s1, execCode ops s code mode = some s1 → StatusBit5 s1 := by
  show StatusBit5Opt (execCode ops s code mode)
  unfold execCode
  apply statusBit5Opt_ite
  · exact fun s1 h => lda_bit5 ops s _ hx s1 h
  apply statusBit5Opt_ite
  · exact fun s1 h => adc_bit5 ops s _ hx s1 h
  apply statusBit5Opt_ite
  · exact fun s1 h => andInstr_bit5 ops s _ hx s1 h
  apply statusBit5Opt_ite
  · intro s1 h
    injection h with h2
    rw [← h2]
    exact asl_accumulator_bit5 _ hx
  apply statusBit5Opt_ite
  · exact fun s1 h => asl_bit5 ops s _ hx s1 h
  apply statusBit5Opt_ite
  · intro s1 h
    injection h with h2
    rw [← h2]
    exact branch_bit5 ops s _ hx
  apply statusBit5Opt_ite
  · intro s1 h
    injection h with h2
    rw [← h2]
    exact branch_bit5 ops s _ hx
  apply statusBit5Opt_ite
  · intro s1 h
    injection h with h2
    rw [← h2]
    exact branch_bit5 ops s _ hx
  apply statusBit5Opt_ite
  · exact fun s1 h => bit_test_bit5 ops s _ hx s1 h
  apply statusBit5Opt_ite
  · intro s1 h
    injection h with h2
    rw [← h2]
    exact branch_bit5 ops s _ hx
  apply statusBit5Opt_ite
  · intro s1 h
    injection h with h2
    rw [← h2]
    exact branch_bit5 ops s _ hx
  apply statusBit5Opt_ite
  · intro s1 h
    injection h with h2
    rw [← h2]
    exact branch_bit5 ops s _ hx
  apply statusBit5Opt_ite
  · intro s1 h
    injection h with h2
    rw [← h2]
    exact branch_bit5 ops s _ hx
  apply statusBit5Opt_ite
  · intro s1 h
    injection h with h2
    rw [← h2]
    exact branch_bit5 ops s _ hx
  apply statusBit5Opt_ite
  · intro s1 h
    injection h with h2
    rw [← h2]
    exact set_flag_bit5 _ _ _ (by decide) hx
  apply statusBit5Opt_ite
  · intro s1 h
    injection h with h2
    rw [← h2]
    exact set_flag_bit5 _ _ _ (by decide) hx
  apply statusBit5Opt_ite
  · intro s1 h
    injection h with h2
    rw [← h2]
    exact set_flag_bit5 _ _ _ (by decide) hx
  apply statusBit5Opt_ite
  · intro s1 h
    injection h with h2
    rw [← h2]
    exact set_flag_bit5 _ _ _ (by decide) hx
  apply statusBit5Opt_ite
  · exact fun s1 h => cmp_bit5 ops s _ hx s1 h
  apply statusBit5Opt_ite
  · exact fun s1 h => cpx_bit5 ops s _ hx s1 h
  apply statusBit5Opt_ite
  · exact fun s1 h => cpy_bit5 ops s _ hx s1 h
  apply statusBit5Opt_ite
  · exact fun s1 h => dec_bit5 ops s _ hx s1 h
  apply statusBit5Opt_ite
  · intro s1 h
    injection h with h2
    rw [← h2]
    exact dex_bit5 _ hx
  apply statusBit5Opt_ite
  · intro s1 h
    injection h with h2
    rw [← h2]
    exact dey_bit5 _ hx
  apply statusBit5Opt_ite
  · exact fun s1 h => eor_bit5 ops s _ hx s1 h
  apply statusBit5Opt_ite
  · exact fun s1 h => inc_bit5 ops s _ hx s1 h
  apply statusBit5Opt_ite
  · intro s1 h
    injection h with h2
    rw [← h2]
    exact inx_bit5 _ hx
  apply statusBit5Opt_ite
  · intro s1 h
    injection h with h2
    rw [← h2]
    exact iny_bit5 _ hx
  apply statusBit5Opt_ite
  · intro s1 h
    injection h with h2
    rw [← h2]
    exact hx
  apply statusBit5Opt_ite
  · intro s1 h
    injection h with h2
    rw [← h2]
    unfold StatusBit5
    split <;> exact hx
  apply statusBit5Opt_ite
  · intro s1 h
    injection h with h2
    rw [← h2]
    unfold StatusBit5
    dsimp only [stack_push_u16, stack_push, mem_write, mem_read_u16, mem_read]
    exact hx
  apply statusBit5Opt_ite
  · exact fun s1 h => ldx_bit5 ops s _ hx s1 h
  apply statusBit5Opt_ite
  · exact fun s1 h => ldy_bit5 ops s _ hx s1 h
  apply statusBit5Opt_ite
  · intro s1 h
    injection h with h2
    rw [← h2]
    exact lsr_accumulator_bit5 _ hx
  apply statusBit5Opt_ite
  · exact fun s1 h => lsr_bit5 ops s _ hx s1 h
  apply statusBit5Opt_ite
  · intro s1 h
    injection h with h2
    rw [← h2]
    exact hx
  apply statusBit5Opt_ite
  · exact fun s1 h => ora_bit5 ops s _ hx s1 h
  apply statusBit5Opt_ite
  · intro s1 h
    injection h with h2
    rw [← h2]
    unfold StatusBit5
    dsimp only [stack_push, mem_write]
    exact hx
  apply statusBit5Opt_ite
  · intro s1 h
    injection h with h2
    rw [← h2]
    unfold StatusBit5
    dsimp only [stack_push, mem_write]
    exact hx
  apply statusBit5Opt_ite
  · intro s1 h
    injection h with h2
    rw [← h2]
    apply update_zn_bit5
    unfold StatusBit5
    dsimp only [stack_pop, mem_read]
    exact hx
  apply statusBit5Opt_ite
  · intro s1 h
    injection h with h2
    rw [← h2]
    unfold StatusBit5
    dsimp only [set_flag_true, set_flag_false, stack_pop, mem_read]
    exact or32_bit5 _
  apply statusBit5Opt_ite
  · intro s1 h
    injection h with h2
    rw [← h2]
    exact rol_accumulator_bit5 _ hx
  apply statusBit5Opt_ite
  · exact fun s1 h => rol_bit5 ops s _ hx s1 h
  apply statusBit5Opt_ite
  · intro s1 h
    injection h with h2
    rw [← h2]
    exact ror_accumulator_bit5 _ hx
  apply statusBit5Opt_ite
  · exact fun s1 h => ror_bit5 ops s _ hx s1 h
  apply statusBit5Opt_ite
  · intro s1 h
    injection h with h2
    rw [← h2]
    unfold StatusBit5
    dsimp only [stack_pop_u16, stack_pop, mem_read, set_flag_true, set_flag_false]
    exact or32_bit5 _
  apply statusBit5Opt_ite
  · intro s1 h
    injection h with h2
    rw [← h2]
    unfold StatusBit5
    dsimp only [stack_pop_u16, stack_pop, mem_read]
    exact hx
  apply statusBit5Opt_ite
  · exact fun s1 h => sbc_bit5 ops s _ hx s1 h
  apply statusBit5Opt_ite
  · intro s1 h
    injection h with h2
    rw [← h2]
    exact set_flag_bit5 _ _ _ (by decide) hx
  apply statusBit5Opt_ite
  · intro s1 h
    injection h with h2
    rw [← h2]
    exact set_flag_bit5 _ _ _ (by decide) hx
  apply statusBit5Opt_ite
  · intro s1 h
    injection h with h2
    rw [← h2]
    exact set_flag_bit5 _ _ _ (by decide) hx
  apply statusBit5Opt_ite
  · exact fun s1 h => sta_bit5 ops s _ hx s1 h
  apply statusBit5Opt_ite
  · exact fun s1 h => stx_bit5 ops s _ hx s1 h
  apply statusBit5Opt_ite
  · exact fun s1 h => sty_bit5 ops s _ hx s1 h
  apply statusBit5Opt_ite
  · intro s1 h
    injection h with h2
    rw [← h2]
    exact tax_bit5 _ hx
  apply statusBit5Opt_ite
  · intro s1 h
    injection h with h2
    rw [← h2]
    exact tay_bit5 _ hx
  apply statusBit5Opt_ite
  · intro s1 h
    injection h with h2
    rw [← h2]
    exact tsx_bit5 _ hx
  apply statusBit5Opt_ite
  · intro s1 h
    injection h with h2
    rw [← h2]
    exact txa_bit5 _ hx
  apply statusBit5Opt_ite
  · intro s1 h
    injection h with h2
    rw [← h2]
    exact txs_bit5 _ hx
  apply statusBit5Opt_ite
  · intro s1 h
    injection h with h2
    rw [← h2]
    exact tya_bit5 _ hx
  apply statusBit5Opt_ite
  · intro s1 h
    injection h with h2
    rw [← h2]
    exact brk_bit5 ops s hx
  apply statusBit5Opt_ite
  · intro s1 h
    injection h with h2
    rw [← h2]
    exact hx
  apply statusBit5Opt_ite
  · intro s1 h
    injection h with h2
    rw [← h2]
    exact hx
  apply statusBit5Opt_ite
  · intro s1 h
    injection h with h2
    rw [← h2]
    exact hx
  apply statusBit5Opt_ite
  · exact fun s1 h => lax_bit5 ops s _ hx s1 h
  apply statusBit5Opt_ite
  · exact fun s1 h => sax_bit5 ops s _ hx s1 h
  apply statusBit5Opt_ite
  · exact fun s1 h => sbc_bit5 ops s _ hx s1 h
  apply statusBit5Opt_ite
  · exact fun s1 h => dcp_bit5 ops s _ hx s1 h
  apply statusBit5Opt_ite
  · exact fun s1 h => isb_bit5 ops s _ hx s1 h
  apply statusBit5Opt_ite
  · exact fun s1 h => slo_bit5 ops s _ hx s1 h
  apply statusBit5Opt_ite
  · exact fun s1 h => rla_bit5 ops s _ hx s1 h
  apply statusBit5Opt_ite
  · exact fun s1 h => sre_bit5 ops s _ hx s1 h
  apply statusBit5Opt_ite
  · exact fun s1 h => rra_bit5 ops s _ hx s1 h
  exact fun s1 h => Option.noConfusion h

end CPU

theorem or48_bit5 (x : Nat) : (x ||| 48) &&& 32 = 32 := by
  rw [show (32 : Nat) = 2 ^ 5 by norm_num]
  rw [and_two_pow_eq_iff, Nat.testBit_or]
  simp [Nat.testBit_two_pow]
  exact Or.inr (by decide)

namespace CPU

variable {B : Type} (ops : BusOps B)

theorem mem_write_u16_status (s : CPU B) (p d : Nat) :
    (mem_write_u16 ops s p d).status = s.status := rfl

theorem loadAt_status (i : Nat) (prog : List Nat) (s : CPU B) :
    (loadAt ops i prog s).status = s.status := by
  induction prog generalizing i s with
  | nil => rfl
  | cons v rest ih =>
    rw [loadAt, ih]
    rfl

theorem new_bit5 (b : B) : StatusBit5 (new b) := by
  show (36 : Nat) &&& 32 = 32
  rfl

theorem reset_bit5 (s : CPU B) : StatusBit5 (reset ops s) := by
  unfold StatusBit5 reset
  dsimp only [mem_read_u16, mem_read]
  rfl

theorem load_bit5 (s : CPU B) (prog : List Nat) (hx : StatusBit5 s) :
    StatusBit5 (load ops s prog) := by
  show (mem_write_u16 ops (loadAt ops 0 prog s) 0x1ffc 0x8600).status &&& 32 = 32
  rw [mem_write_u16_status, loadAt_status]
  exact hx

set_option maxHeartbeats 1000000 in
set_option maxRecDepth 8000 in
theorem step_bit5 (table : Nat → Option OpCode) (s : CPU B) (hx : StatusBit5 s) :
    ∀ s1, step ops table s = some s1 → StatusBit5 s1 := by
  intro s1 h
  simp only [step] at h
  split at h
  · exact Option.noConfusion h
  · split at h
    · rw [Option.map_eq_some'] at h
      obtain ⟨s3, he, hf⟩ := h
      have h5 : StatusBit5 s3 := by
        refine execCode_bit5 ops _ _ _ ?_ s3 he
        unfold StatusBit5
        dsimp only [mem_read]
        exact interrupt_bit5 ops _ _ hx
      rw [← hf]
      unfold StatusBit5
      try dsimp only
      split
      all_goals exact h5
    · rw [Option.map_eq_some'] at h
      obtain ⟨s3, he, hf⟩ := h
      have h5 : StatusBit5 s3 := by
        refine execCode_bit5 ops _ _ _ ?_ s3 he
        unfold StatusBit5
        dsimp only [mem_read]
        exact hx
      rw [← hf]
      unfold StatusBit5
      try dsimp only
      split
      all_goals exact h5

theorem reachable_bit5 (table : Nat → Option OpCode) (s : CPU B)
    (h : Reachable ops table s) : StatusBit5 s := by
  induction h with
  | boot b => exact new_bit5 b
  | reset _ _ => exact reset_bit5 ops _
  | load prog _ ih => exact load_bit5 ops _ prog ih
  | step _ hs ih => exact step_bit5 ops _ _ ih _ hs

end CPU

/-- C8: for every reachable CPU state, every byte pushed onto the stack as the
status register P has bit 5 set.  The three P-pushing paths in src/cpu.rs are:
PHP, which pushes status ||| 0b00110000 (second conjunct); BRK, which pushes
the status produced by set_flag Break true, that is status ||| 0b00010000, on
a state with the reachable status (third conjunct); and NMI service, whose
mask-compare branches never fire so it pushes the status byte unchanged
(first conjunct).  All three hold because bit 5 of the status register is an
invariant of every reachable state: it is set at construction and reset, and
preserved by load and by every iteration of the run loop. -/
theorem c8_pushed_status_bit5 {B : Type} (ops : BusOps B) (table : Nat → Option OpCode)
    (s : CPU B) (h : CPU.Reachable ops table s) :
    StatusBit5 s ∧ (s.status ||| 0b00110000) &&& 32 = 32 ∧
      StatusBit5 (CPU.set_flag s StatusFlag.Break true) := by
  have h5 := CPU.reachable_bit5 ops table s h
  exact ⟨h5, or48_bit5 _, CPU.set_flag_bit5 _ _ _ (by decide) h5⟩

/-- Witness for C8 at the freshly constructed CPU over the concrete tick bus. -/
theorem c8_pushed_status_bit5_witness :
    StatusBit5 (CPU.new (⟨fun _ => 0, []⟩ : TickBus)) ∧
      ((CPU.new (⟨fun _ => 0, []⟩ : TickBus)).status ||| 0b00110000) &&& 32 = 32 ∧
      StatusBit5 (CPU.set_flag (CPU.new (⟨fun _ => 0, []⟩ : TickBus))
        StatusFlag.Break true) :=
  c8_pushed_status_bit5 TickBus.ops (fun _ => none) _ (CPU.Reachable.boot _)
